import Mathlib

/-!
Shallow embedding of the TeamUp Firestore data-access module
(`src/services/firestore.ts`): user profiles, teams, invitations / join
requests, notifications, feed posts, conversations and messages, together
with the membership-consistency workflow built on them.

The document store is modelled as an explicit `Store` record of collections
(lists of documents in insertion order).  Generated document ids are
modelled as natural numbers drawn from a `nextId` counter (Firestore's
`addDoc` generates a fresh opaque id).  Each exported async function of the
module becomes a function `args → Store → Except String α × Store`: a
`throw new Error(msg)` is `.error msg`, and the returned store reflects the
sequential read-modify-write calls the source performs, so writes that
happened before a throw persist, exactly as in the source (no transactions).
-/

/-- TypeScript `x || d` for an optional string: `null`, `undefined` and the
empty string are all falsy and fall through to the default `d`. -/
def strOr : Option String → String → String
  | none, d => d
  | some s, d => if s = "" then d else s

/-- Invitation type: `'invite' | 'join_request'`. -/
inductive InvType
  | invite
  | joinRequest
deriving DecidableEq, Repr

/-- Invitation status: `'pending' | 'accepted' | 'rejected'`. -/
inductive InvStatus
  | pending
  | accepted
  | rejected
deriving DecidableEq, Repr

/-- The status argument of `respondToInvitation`: `'accepted' | 'rejected'`. -/
inductive ResponseStatus
  | accepted
  | rejected
deriving DecidableEq, Repr

def ResponseStatus.toInvStatus : ResponseStatus → InvStatus
  | .accepted => .accepted
  | .rejected => .rejected

/-- Notification type strings used by the module:
`'INVITE' | 'JOIN_REQUEST' | 'ACCEPTED' | 'REJECTED' | 'MESSAGE'`. -/
inductive NotifType
  | INVITE
  | JOIN_REQUEST
  | ACCEPTED
  | REJECTED
  | MESSAGE
deriving DecidableEq, Repr

/-- An entry of a team's embedded `members` array. -/
structure TeamMember where
  userId : String
  role : String
  userName : String
deriving DecidableEq, Repr

/-- A document of the `profiles` collection (fields used by the embedded
operations; `teamId` is a generated team-document id or `null`). -/
structure UserProfile where
  fullName : Option String := none
  username : Option String := none
  primaryRole : Option String := none
  avatar : Option String := none
  teamId : Option Nat := none
  isTeamLeader : Bool := false
deriving DecidableEq, Repr

/-- A document of the `teams` collection. -/
structure Team where
  id : Nat
  name : String
  description : String := ""
  leaderId : String
  leaderName : String := ""
  maxMembers : Nat
  members : List TeamMember
  status : String := "forming"
  rolesNeeded : List String := []
deriving DecidableEq, Repr

/-- Argument of `createTeam`: `Omit<Team, 'id' | 'createdAt' | 'members'>`
(the source also overwrites `leaderName` from the leader's profile). -/
structure CreateTeamData where
  name : String
  description : String := ""
  leaderId : String
  maxMembers : Nat
  status : String := "forming"
  rolesNeeded : List String := []
deriving DecidableEq, Repr

/-- A document of the `invitations` collection. -/
structure Invitation where
  id : Nat
  type : InvType
  status : InvStatus
  fromUserId : String
  fromUserName : String
  toUserId : String
  toUserName : String
  teamId : Nat
  teamName : String
  message : Option String := none
deriving DecidableEq, Repr

/-- Argument of `sendInvitation`: `Omit<Invitation, 'id' | 'status' | 'createdAt'>`. -/
structure SendInvitationData where
  type : InvType
  fromUserId : String
  fromUserName : String
  toUserId : String
  toUserName : String
  teamId : Nat
  teamName : String
  message : Option String := none
deriving DecidableEq, Repr

/-- A document of the `notifications` collection. -/
structure Notification where
  id : Nat
  toUserId : String
  fromUserId : String
  fromUserName : String
  type : NotifType
  teamId : Option Nat := none
  teamName : Option String := none
  message : Option String := none
  conversationId : Option Nat := none
  read : Bool
deriving DecidableEq, Repr

/-- Argument of `createNotification`: `Omit<Notification, 'id' | 'read' | 'createdAt'>`. -/
structure NotificationData where
  toUserId : String
  fromUserId : String
  fromUserName : String
  type : NotifType
  teamId : Option Nat := none
  teamName : Option String := none
  message : Option String := none
  conversationId : Option Nat := none
deriving DecidableEq, Repr

/-- A document of the `posts` collection. -/
structure FeedPost where
  id : Nat
  authorId : String
  authorName : String
  authorAvatar : Option String := none
  authorRole : Option String := none
  type : String
  title : String
  description : String := ""
  teamId : Option Nat := none
  teamName : Option String := none
  rolesNeeded : List String := []
  tags : List String := []
deriving DecidableEq, Repr

/-- Argument of `createFeedPost`: `Omit<FeedPost, 'id' | 'createdAt'>`. -/
structure FeedPostData where
  authorId : String
  authorName : String
  authorAvatar : Option String := none
  authorRole : Option String := none
  type : String
  title : String
  description : String := ""
  teamId : Option Nat := none
  teamName : Option String := none
  rolesNeeded : List String := []
  tags : List String := []
deriving DecidableEq, Repr

/-- The `lastMessage` summary embedded in a conversation document. -/
structure LastMessage where
  text : String
  senderId : String
deriving DecidableEq, Repr

/-- A document of the `conversations` collection. -/
structure Conversation where
  id : Nat
  participants : List String
  participantNames : List (String × String) := []
  participantAvatars : List (String × String) := []
  lastMessage : Option LastMessage := none
deriving DecidableEq, Repr

/-- A document of the `messages` collection. -/
structure Message where
  id : Nat
  conversationId : Nat
  participants : List String
  senderId : String
  senderName : String
  text : String
  read : Bool
deriving DecidableEq, Repr

/-- A document of the legacy `teamMembers` collection (kept "for backward
compatibility" by `addTeamMember` and cleaned up by the removal functions). -/
structure TeamMemberDoc where
  id : Nat
  teamId : Nat
  userId : String
  role : String
deriving DecidableEq, Repr

/-- The document store: one list per collection (documents in insertion
order, Firestore id → document), plus the `isFirebaseConfigured()` flag and
the fresh-id counter used to model `addDoc`'s generated ids.  Profile
documents are keyed by the user id they are stored under. -/
structure Store where
  configured : Bool
  profiles : List (String × UserProfile)
  teams : List Team
  teamMemberDocs : List TeamMemberDoc
  invitations : List Invitation
  notifications : List Notification
  posts : List FeedPost
  conversations : List Conversation
  messages : List Message
  nextId : Nat
deriving DecidableEq, Repr

/-- Embeds `getProfile`: `null` when Firebase is unconfigured or the document is
missing, otherwise the profile document. -/
def getProfile (userId : String) (s : Store) : Option UserProfile :=
  if s.configured then (s.profiles.find? fun p => p.1 == userId).map Prod.snd
  else none

/-- Embeds `getTeam`: `null` when Firebase is unconfigured or the document is
missing, otherwise the team document. -/
def getTeam (teamId : Nat) (s : Store) : Option Team :=
  if s.configured then s.teams.find? fun t => t.id == teamId
  else none

/-- Embeds `updateProfile` at the call pattern `teamId`, `isTeamLeader` used by
every team-membership operation (the source's generic `Partial<UserProfile>`
merge and username lowercasing are not exercised by these calls).  Mirrors
the source's guard and its `'User ID is required for profile update'` throw
on a falsy user id. -/
def updateProfileTeam (userId : String) (teamId : Option Nat) (isLeader : Bool)
    (s : Store) : Except String Unit × Store :=
  if !s.configured then (.ok (), s)
  else if userId = "" then (.error "User ID is required for profile update", s)
  else (.ok (), { s with profiles := s.profiles.map (fun p =>
    if p.1 == userId then (p.1, { p.2 with teamId := teamId, isTeamLeader := isLeader })
    else p) })

/-- Embeds `updateTeam` at the call pattern `members` used by `addTeamMember`
and `removeTeamMember` (the source takes a generic `Partial<Team>`). -/
def updateTeam (teamId : Nat) (members : List TeamMember) (s : Store) : Store :=
  if !s.configured then s
  else { s with teams := s.teams.map (fun t =>
    if t.id == teamId then { t with members := members } else t) }

/-- Embeds `createNotification`: appends a notification document with
`read: false`. -/
def createNotification (d : NotificationData) (s : Store) : Store :=
  if !s.configured then s
  else
    let doc : Notification :=
      { id := s.nextId, toUserId := d.toUserId, fromUserId := d.fromUserId,
        fromUserName := d.fromUserName, type := d.type, teamId := d.teamId,
        teamName := d.teamName, message := d.message,
        conversationId := d.conversationId, read := false }
    { s with notifications := s.notifications ++ [doc], nextId := s.nextId + 1 }

/-- Embeds `createFeedPost`: appends a post document and returns its generated id
(`none` models the `''` sentinel returned when Firebase is unconfigured). -/
def createFeedPost (d : FeedPostData) (s : Store) : Option Nat × Store :=
  if !s.configured then (none, s)
  else
    let doc : FeedPost :=
      { id := s.nextId, authorId := d.authorId, authorName := d.authorName,
        authorAvatar := d.authorAvatar, authorRole := d.authorRole,
        type := d.type, title := d.title, description := d.description,
        teamId := d.teamId, teamName := d.teamName,
        rolesNeeded := d.rolesNeeded, tags := d.tags }
    (some s.nextId, { s with posts := s.posts ++ [doc], nextId := s.nextId + 1 })

/-- Embeds `createTeam`: creates the team document with the leader as sole member
(role `'Team Leader'`), points the leader's profile at the new team with
`isTeamLeader: true`, and creates a `'team_created'` feed post.  Returns the
new team's id (`none` models the `''` sentinel when unconfigured). -/
def createTeam (d : CreateTeamData) (s : Store) : Except String (Option Nat) × Store :=
  if !s.configured then (.ok none, s)
  else
    let leaderProfile := getProfile d.leaderId s
    let leaderName := strOr (leaderProfile.bind UserProfile.fullName) "User"
    let teamId := s.nextId
    let teamDoc : Team :=
      { id := teamId, name := d.name, description := d.description,
        leaderId := d.leaderId, leaderName := leaderName,
        maxMembers := d.maxMembers,
        members := [{ userId := d.leaderId, role := "Team Leader", userName := leaderName }],
        status := d.status, rolesNeeded := d.rolesNeeded }
    let s1 : Store := { s with teams := s.teams ++ [teamDoc], nextId := s.nextId + 1 }
    match updateProfileTeam d.leaderId (some teamId) true s1 with
    | (.error e, s2) => (.error e, s2)
    | (.ok _, s2) =>
      let postData : FeedPostData :=
        { authorId := d.leaderId, authorName := leaderName,
          authorAvatar := leaderProfile.bind UserProfile.avatar,
          authorRole := leaderProfile.bind UserProfile.primaryRole,
          type := "team_created", title := "🚀 Created team: " ++ d.name,
          description := d.description, teamId := some teamId,
          teamName := some d.name, rolesNeeded := d.rolesNeeded }
      let post := createFeedPost postData s2
      (.ok (some teamId), post.2)

/-- Embeds `addTeamMember`: rejects a joiner who already has a team and a team that
is full, then appends the member to the team's `members` array, points the
member's profile at the team, creates a `'member_joined'` feed post and a
legacy `teamMembers` document. -/
def addTeamMember (teamId : Nat) (userId : String) (role : String) (s : Store) :
    Except String Unit × Store :=
  if !s.configured then (.ok (), s)
  else
    let profile := getProfile userId s
    if (profile.bind UserProfile.teamId).isSome then
      (.error "User is already in a team", s)
    else
      match getTeam teamId s with
      | none => (.error "Team not found", s)
      | some team =>
        if team.members.length ≥ team.maxMembers then
          (.error "Team is full", s)
        else
          let userName := strOr (profile.bind UserProfile.fullName) "User"
          let updatedMembers := team.members ++
            [{ userId := userId, role := role, userName := userName }]
          let s1 := updateTeam teamId updatedMembers s
          match updateProfileTeam userId (some teamId) false s1 with
          | (.error e, s2) => (.error e, s2)
          | (.ok _, s2) =>
            let postData : FeedPostData :=
              { authorId := userId, authorName := userName,
                authorAvatar := profile.bind UserProfile.avatar,
                authorRole := profile.bind UserProfile.primaryRole,
                type := "member_joined", title := "🎉 Joined team: " ++ team.name,
                description := userName ++ " joined as " ++ role,
                teamId := some teamId, teamName := some team.name }
            let s3 := (createFeedPost postData s2).2
            let memberDoc : TeamMemberDoc :=
              { id := s3.nextId, teamId := teamId, userId := userId, role := role }
            let s4 : Store :=
              { s3 with
                teamMemberDocs := s3.teamMemberDocs ++ [memberDoc],
                nextId := s3.nextId + 1 }
            (.ok (), s4)

/-- Embeds `removeTeamMember`: filters the user out of the team's `members` array,
resets the user's profile to `teamId: null, isTeamLeader: false`, and deletes
the matching legacy `teamMembers` documents.  Returns silently when the team
does not exist. -/
def removeTeamMember (teamId : Nat) (userId : String) (s : Store) :
    Except String Unit × Store :=
  if !s.configured then (.ok (), s)
  else
    match getTeam teamId s with
    | none => (.ok (), s)
    | some team =>
      let updatedMembers := team.members.filter fun m => !(m.userId == userId)
      let s1 := updateTeam teamId updatedMembers s
      match updateProfileTeam userId none false s1 with
      | (.error e, s2) => (.error e, s2)
      | (.ok _, s2) =>
        (.ok (), { s2 with teamMemberDocs := s2.teamMemberDocs.filter (fun m =>
          !(m.teamId == teamId && m.userId == userId)) })

/-- The `for (const member of team.members)` loop of `terminateTeam`:
sequentially resets each member's profile to `teamId: null,
isTeamLeader: false`, propagating a throw from `updateProfile`. -/
def resetProfiles : List TeamMember → Store → Except String Unit × Store
  | [], s => (.ok (), s)
  | m :: rest, s =>
    match updateProfileTeam m.userId none false s with
    | (.error e, s1) => (.error e, s1)
    | (.ok _, s1) => resetProfiles rest s1

/-- Embeds `terminateTeam` (leader only): resets every member's profile, deletes the
team's legacy `teamMembers` documents, deletes the team's invitations, then
deletes the team document itself. -/
def terminateTeam (teamId : Nat) (leaderId : String) (s : Store) :
    Except String Unit × Store :=
  if !s.configured then (.ok (), s)
  else
    match getTeam teamId s with
    | none => (.error "Team not found", s)
    | some team =>
      if !(team.leaderId == leaderId) then
        (.error "Only team leader can terminate the team", s)
      else
        match resetProfiles team.members s with
        | (.error e, s1) => (.error e, s1)
        | (.ok _, s1) =>
          let s2 : Store :=
            { s1 with teamMemberDocs := s1.teamMemberDocs.filter (fun m => !(m.teamId == teamId)) }
          let s3 : Store :=
            { s2 with invitations := s2.invitations.filter (fun i => !(i.teamId == teamId)) }
          (.ok (), { s3 with teams := s3.teams.filter (fun t => !(t.id == teamId)) })

/-- Embeds `sendInvitation`: one-team precondition on the prospective joiner,
de-duplication against pending invitations with the same `fromUserId` and
`teamId`, then creation of the pending invitation and of the `'INVITE'` /
`'JOIN_REQUEST'` notification to the target user. -/
def sendInvitation (d : SendInvitationData) (s : Store) : Except String Unit × Store :=
  if !s.configured then (.ok (), s)
  else
    let isJoinRequest := d.type == InvType.joinRequest
    if !isJoinRequest && ((getProfile d.toUserId s).bind UserProfile.teamId).isSome then
      (.error "User is already in a team", s)
    else if isJoinRequest && ((getProfile d.fromUserId s).bind UserProfile.teamId).isSome then
      (.error "You are already in a team", s)
    else
      let existing := s.invitations.filter fun i =>
        i.fromUserId == d.fromUserId && i.teamId == d.teamId && i.status == InvStatus.pending
      if !existing.isEmpty then
        (.error (if isJoinRequest then "Join request already sent" else "Invitation already sent"), s)
      else
        let invDoc : Invitation :=
          { id := s.nextId, type := d.type, status := .pending,
            fromUserId := d.fromUserId, fromUserName := d.fromUserName,
            toUserId := d.toUserId, toUserName := d.toUserName,
            teamId := d.teamId, teamName := d.teamName, message := d.message }
        let s1 : Store :=
          { s with invitations := s.invitations ++ [invDoc], nextId := s.nextId + 1 }
        let notifData : NotificationData :=
          { toUserId := d.toUserId, fromUserId := d.fromUserId,
            fromUserName := d.fromUserName,
            type := if isJoinRequest then .JOIN_REQUEST else .INVITE,
            teamId := some d.teamId, teamName := some d.teamName,
            message := d.message }
        (.ok (), createNotification notifData s1)

/-- Embeds `respondToInvitation`: resolves a pending invitation.  For `'accepted'`
it first re-checks the one-team precondition on the joining user (the
`fromUser` of a join request, the `toUser` of an invite), that the team
still exists and that it has room; then it writes the new status, adds the
joining member via `addTeamMember`, and notifies the invitation's
`fromUser` with `'ACCEPTED'` or `'REJECTED'`.  The unused `teamId` and
`userId` parameters of the source are omitted; `role` is the source's
optional `role` parameter. -/
def respondToInvitation (invitationId : Nat) (status : ResponseStatus)
    (role : Option String) (s : Store) : Except String Unit × Store :=
  if !s.configured then (.ok (), s)
  else
    match s.invitations.find? fun i => i.id == invitationId with
    | none => (.error "Invitation not found", s)
    | some invitation =>
      let isJoinRequest := invitation.type == InvType.joinRequest
      let joiningUserId := if isJoinRequest then invitation.fromUserId else invitation.toUserId
      let joiningUserName := if isJoinRequest then invitation.fromUserName else invitation.toUserName
      if status == .accepted && ((getProfile joiningUserId s).bind UserProfile.teamId).isSome then
        (.error "User is already in a team", s)
      else if status == .accepted && (getTeam invitation.teamId s).isNone then
        (.error "Team no longer exists", s)
      else if status == .accepted &&
          (match getTeam invitation.teamId s with
           | some team => team.members.length ≥ team.maxMembers
           | none => false) then
        (.error "Team is full", s)
      else
        let s1 : Store := { s with invitations := s.invitations.map (fun i =>
          if i.id == invitationId then { i with status := status.toInvStatus } else i) }
        match status with
        | .accepted =>
          let joiningProfile := getProfile joiningUserId s1
          let joiningRole := strOr (joiningProfile.bind UserProfile.primaryRole) (strOr role "Member")
          match addTeamMember invitation.teamId joiningUserId joiningRole s1 with
          | (.error e, s2) => (.error e, s2)
          | (.ok _, s2) =>
            let responderProfile := getProfile invitation.toUserId s2
            let notifData : NotificationData :=
              { toUserId := invitation.fromUserId, fromUserId := invitation.toUserId,
                fromUserName := strOr (responderProfile.bind UserProfile.fullName) "User",
                type := .ACCEPTED, teamId := some invitation.teamId,
                teamName := some invitation.teamName,
                message := some (if isJoinRequest then
                    "Your request to join " ++ invitation.teamName ++ " was accepted!"
                  else joiningUserName ++ " accepted your invitation to join " ++ invitation.teamName) }
            (.ok (), createNotification notifData s2)
        | .rejected =>
          let responderProfile := getProfile invitation.toUserId s1
          let notifData : NotificationData :=
            { toUserId := invitation.fromUserId, fromUserId := invitation.toUserId,
              fromUserName := strOr (responderProfile.bind UserProfile.fullName) "User",
              type := .REJECTED, teamId := some invitation.teamId,
              teamName := some invitation.teamName,
              message := some (if isJoinRequest then
                  "Your request to join " ++ invitation.teamName ++ " was declined"
                else invitation.toUserName ++ " declined your invitation to join " ++ invitation.teamName) }
          (.ok (), createNotification notifData s1)

/-- Embeds `getOrCreateConversation`: returns the id of the first conversation whose
participants include both users, creating it (participants
`[user1Id, user2Id]`) only if none exists.  `none` models the `''` sentinel
returned when Firebase is unconfigured. -/
def getOrCreateConversation (user1Id user2Id : String) (s : Store) : Option Nat × Store :=
  if !s.configured then (none, s)
  else
    match s.conversations.find? fun c =>
        c.participants.contains user1Id && c.participants.contains user2Id with
    | some existing => (some existing.id, s)
    | none =>
      let profile1 := getProfile user1Id s
      let profile2 := getProfile user2Id s
      let name1 := strOr (profile1.bind UserProfile.fullName) "User"
      let name2 := strOr (profile2.bind UserProfile.fullName) "User"
      let convDoc : Conversation :=
        { id := s.nextId, participants := [user1Id, user2Id],
          participantNames := [(user1Id, name1), (user2Id, name2)],
          participantAvatars :=
            [(user1Id, strOr (profile1.bind UserProfile.avatar)
                ("https://api.dicebear.com/7.x/initials/svg?seed=" ++ name1)),
             (user2Id, strOr (profile2.bind UserProfile.avatar)
                ("https://api.dicebear.com/7.x/initials/svg?seed=" ++ name2))] }
      let s1 : Store :=
        { s with conversations := s.conversations ++ [convDoc], nextId := s.nextId + 1 }
      (some s.nextId, s1)

/-- Embeds `sendMessage`: creates the message document, updates the
conversation's `lastMessage`, and creates a `'MESSAGE'` notification for the
other participant.  The source guards the notification with a truthy
`if (recipientId)`, so no notification is sent when no other participant is
found or the found id is the empty string.  `text.take 50` and `text.length`
model `substring(0, 50)` and `.length` up to the codepoint vs UTF-16-unit
distinction.  Returns the message id (`none` models the `''` sentinel when
unconfigured). -/
def sendMessage (conversationId : Nat) (senderId : String) (text : String)
    (s : Store) : Except String (Option Nat) × Store :=
  if !s.configured then (.ok none, s)
  else
    let senderProfile := getProfile senderId s
    match s.conversations.find? fun c => c.id == conversationId with
    | none => (.error "Conversation not found", s)
    | some conv =>
      let senderName := strOr (senderProfile.bind UserProfile.fullName) "User"
      let msgId := s.nextId
      let msgDoc : Message :=
        { id := msgId, conversationId := conversationId,
          participants := conv.participants, senderId := senderId,
          senderName := senderName, text := text, read := false }
      let s1 : Store :=
        { s with messages := s.messages ++ [msgDoc], nextId := s.nextId + 1 }
      let s2 : Store := { s1 with conversations := s1.conversations.map (fun c =>
        if c.id == conversationId then
          { c with lastMessage := some { text := text, senderId := senderId } }
        else c) }
      match conv.participants.find? fun uid => !(uid == senderId) with
      | some recipientId =>
        if recipientId = "" then (.ok (some msgId), s2)
        else
          let notifData : NotificationData :=
            { toUserId := recipientId, fromUserId := senderId,
              fromUserName := senderName, type := .MESSAGE,
              message := some (if text.length > 50 then text.take 50 ++ "..." else text),
              conversationId := some conversationId }
          (.ok (some msgId), createNotification notifData s2)
      | none => (.ok (some msgId), s2)

/-- Embeds `getAvailableUsersCount`: number of profiles with `teamId == null`
(`0` when unconfigured). -/
def getAvailableUsersCount (s : Store) : Nat :=
  if !s.configured then 0
  else (s.profiles.filter fun p => p.2.teamId == none).length

/-- Embeds `isUsernameAvailable` (`true` when unconfigured, `false` on an
empty username, otherwise no other profile holds the lowercased username;
the source's `if (excludeUserId)` is falsy for an empty exclude id, falling
through to `return false`). -/
def isUsernameAvailable (username : String) (excludeUserId : Option String)
    (s : Store) : Bool :=
  if !s.configured then true
  else if username = "" then false
  else
    let normalized := username.toLower
    let docs := s.profiles.filter fun p => p.2.username == some normalized
    if docs.isEmpty then true
    else
      match excludeUserId with
      | some ex => if ex = "" then false else docs.all fun p => p.1 == ex
      | none => false

/-- Embeds `deleteUserCompletely`.  Unlike every other function above, the source
has no `isFirebaseConfigured()` guard: it reads the profile, deletes or
shrinks the user's team, deletes the user's posts and the profile document
regardless of configuration.  In the branch where the profile's `teamId`
points at a missing team, the source reads `team.members` off `undefined`
and throws a runtime `TypeError`. -/
def deleteUserCompletely (userId : String) (s : Store) : Except String Unit × Store :=
  match s.profiles.find? fun p => p.1 == userId with
  | none => (.ok (), s)
  | some prof =>
    let step1 : Except String Unit × Store :=
      match prof.2.teamId with
      | none => (.ok (), s)
      | some tid =>
        match s.teams.find? fun t => t.id == tid with
        | some team =>
          if team.leaderId == userId then
            (.ok (), { s with teams := s.teams.filter (fun t => !(t.id == tid)) })
          else
            (.ok (), { s with teams := s.teams.map (fun t =>
              if t.id == tid then
                { t with members := t.members.filter (fun m => !(m.userId == userId)) }
              else t) })
        | none => (.error "TypeError: team is undefined", s)
    match step1 with
    | (.error e, s1) => (.error e, s1)
    | (.ok _, s1) =>
      let s2 : Store := { s1 with posts := s1.posts.filter (fun post =>
        !(post.authorId == userId)) }
      (.ok (), { s2 with profiles := s2.profiles.filter (fun p => !(p.1 == userId)) })

/-! Invariants -/

/-- The one-team invariant of the data model, strengthened so that it is
inductive for the membership operations: generated team ids are unique,
every profile's `teamId` is `null` or points at an existing team that lists
the user among its members, and every stored team id is below the fresh-id
counter. -/
def OneTeamInv (s : Store) : Prop :=
  (s.teams.map Team.id).Nodup ∧
  (∀ p ∈ s.profiles, ∀ tid, p.2.teamId = some tid →
    ∃ team ∈ s.teams, team.id = tid ∧ p.1 ∈ team.members.map TeamMember.userId) ∧
  (∀ team ∈ s.teams, team.id < s.nextId)

/-- The capacity invariant: no team's member count exceeds its
`maxMembers`. -/
def Cap (s : Store) : Prop :=
  ∀ team ∈ s.teams, team.members.length ≤ team.maxMembers

/-- The first stored conversation whose participants include both users
(the lookup performed by `getOrCreateConversation`). -/
def convFor (user1Id user2Id : String) (s : Store) : Option Conversation :=
  s.conversations.find? fun c =>
    c.participants.contains user1Id && c.participants.contains user2Id

/-- Number of stored conversations whose participants include both users. -/
def convCount (user1Id user2Id : String) (s : Store) : Nat :=
  (s.conversations.filter fun c =>
    c.participants.contains user1Id && c.participants.contains user2Id).length

/-! Sample data for witnesses -/

def aliceProfile : UserProfile :=
  { fullName := some "Alice", primaryRole := some "Designer",
    teamId := some 0, isTeamLeader := true }

def bobProfile : UserProfile :=
  { fullName := some "Bob", primaryRole := some "Dev" }

def sampleTeam : Team :=
  { id := 0, name := "T", leaderId := "alice", leaderName := "Alice",
    maxMembers := 3,
    members := [{ userId := "alice", role := "Team Leader", userName := "Alice" }] }

def sampleInvite : Invitation :=
  { id := 1, type := .invite, status := .pending,
    fromUserId := "alice", fromUserName := "Alice",
    toUserId := "bob", toUserName := "Bob", teamId := 0, teamName := "T" }

/-- A configured store: Alice leads team `0` (capacity 3), Bob is free, and
invitation `1` invites Bob to the team. -/
def sampleStore : Store :=
  { configured := true,
    profiles := [("alice", aliceProfile), ("bob", bobProfile)],
    teams := [sampleTeam], teamMemberDocs := [], invitations := [sampleInvite],
    notifications := [], posts := [], conversations := [], messages := [],
    nextId := 2 }

/-- Like `sampleStore` but team `0` is already at capacity. -/
def fullStore : Store :=
  { sampleStore with teams := [{ sampleTeam with maxMembers := 1 }] }

/-- An unconfigured store holding one profile and one post of Bob's. -/
def offStore : Store :=
  { configured := false,
    profiles := [("bob", bobProfile)],
    teams := [], teamMemberDocs := [], invitations := [],
    notifications := [],
    posts := [{ id := 0, authorId := "bob", authorName := "Bob",
                type := "user_post", title := "hi" }],
    conversations := [], messages := [], nextId := 1 }

/-! Characterization lemmas for the membership operations -/

theorem getTeam_mem {tid : Nat} {s : Store} {team : Team}
    (h : getTeam tid s = some team) : team ∈ s.teams ∧ team.id = tid := by
  by_cases hc : s.configured = true
  · rw [getTeam, if_pos hc] at h
    exact ⟨List.mem_of_find?_eq_some h, by simpa using List.find?_some h⟩
  · rw [getTeam, if_neg hc] at h
    exact absurd h (by simp)

theorem addTeamMember_not_configured {teamId : Nat} {userId role : String} {s : Store}
    (hc : s.configured = false) :
    addTeamMember teamId userId role s = (.ok (), s) := by
  simp [addTeamMember, hc]

theorem addTeamMember_already_in_team {teamId : Nat} {userId role : String} {s : Store}
    (hc : s.configured = true)
    (hbusy : ((getProfile userId s).bind UserProfile.teamId).isSome = true) :
    addTeamMember teamId userId role s = (.error "User is already in a team", s) := by
  simp [addTeamMember, hc, hbusy]

theorem addTeamMember_no_team {teamId : Nat} {userId role : String} {s : Store}
    (hc : s.configured = true)
    (hfree : ((getProfile userId s).bind UserProfile.teamId).isSome = false)
    (hteam : getTeam teamId s = none) :
    addTeamMember teamId userId role s = (.error "Team not found", s) := by
  simp [addTeamMember, hc, hfree, hteam]

theorem addTeamMember_full {teamId : Nat} {userId role : String} {s : Store} {team : Team}
    (hc : s.configured = true)
    (hfree : ((getProfile userId s).bind UserProfile.teamId).isSome = false)
    (hteam : getTeam teamId s = some team)
    (hfull : team.members.length ≥ team.maxMembers) :
    addTeamMember teamId userId role s = (.error "Team is full", s) := by
  simp [addTeamMember, hc, hfree, hteam, hfull]

theorem addTeamMember_success {teamId : Nat} {userId role : String} {s : Store} {team : Team}
    (hc : s.configured = true)
    (hfree : ((getProfile userId s).bind UserProfile.teamId).isSome = false)
    (hteam : getTeam teamId s = some team)
    (hroom : team.members.length < team.maxMembers)
    (huid : userId ≠ "") :
    addTeamMember teamId userId role s = (.ok (),
      { s with
        teams := s.teams.map (fun t =>
          if t.id == teamId then
            { t with members := team.members ++
                [{ userId := userId, role := role,
                   userName := strOr ((getProfile userId s).bind UserProfile.fullName) "User" }] }
          else t),
        profiles := s.profiles.map (fun p =>
          if p.1 == userId then (p.1, { p.2 with teamId := some teamId, isTeamLeader := false })
          else p),
        posts := s.posts ++
          [{ id := s.nextId, authorId := userId,
             authorName := strOr ((getProfile userId s).bind UserProfile.fullName) "User",
             authorAvatar := (getProfile userId s).bind UserProfile.avatar,
             authorRole := (getProfile userId s).bind UserProfile.primaryRole,
             type := "member_joined", title := "🎉 Joined team: " ++ team.name,
             description := strOr ((getProfile userId s).bind UserProfile.fullName) "User" ++
               " joined as " ++ role,
             teamId := some teamId, teamName := some team.name }],
        teamMemberDocs := s.teamMemberDocs ++
          [{ id := s.nextId + 1, teamId := teamId, userId := userId, role := role }],
        nextId := s.nextId + 2 }) := by
  have hnf : ¬(team.members.length ≥ team.maxMembers) := Nat.not_le.mpr hroom
  simp [addTeamMember, hc, hfree, hteam, hnf, updateTeam, updateProfileTeam, createFeedPost, huid]

theorem addTeamMember_empty_uid {teamId : Nat} {role : String} {s : Store} {team : Team}
    (hc : s.configured = true)
    (hfree : ((getProfile "" s).bind UserProfile.teamId).isSome = false)
    (hteam : getTeam teamId s = some team)
    (hroom : team.members.length < team.maxMembers) :
    addTeamMember teamId "" role s = (.error "User ID is required for profile update",
      updateTeam teamId (team.members ++
        [{ userId := "", role := role,
           userName := strOr ((getProfile "" s).bind UserProfile.fullName) "User" }]) s) := by
  have hnf : ¬(team.members.length ≥ team.maxMembers) := Nat.not_le.mpr hroom
  simp [addTeamMember, hc, hfree, hteam, hnf, updateProfileTeam, updateTeam]

theorem respondToInvitation_not_configured {invitationId : Nat} {status : ResponseStatus}
    {role : Option String} {s : Store} (hc : s.configured = false) :
    respondToInvitation invitationId status role s = (.ok (), s) := by
  simp [respondToInvitation, hc]

theorem respondToInvitation_not_found {invitationId : Nat} {status : ResponseStatus}
    {role : Option String} {s : Store} (hc : s.configured = true)
    (hfind : (s.invitations.find? fun i => i.id == invitationId) = none) :
    respondToInvitation invitationId status role s = (.error "Invitation not found", s) := by
  simp [respondToInvitation, hc, hfind]

/-- The user who would join the team when an invitation is accepted:
the `fromUser` of a join request, the `toUser` of an invite. -/
def joinerOf (inv : Invitation) : String :=
  if inv.type == InvType.joinRequest then inv.fromUserId else inv.toUserId

theorem respondToInvitation_already_in_team {invitationId : Nat} {role : Option String}
    {s : Store} {inv : Invitation} (hc : s.configured = true)
    (hfind : (s.invitations.find? fun i => i.id == invitationId) = some inv)
    (hbusy : ((getProfile (joinerOf inv) s).bind UserProfile.teamId).isSome = true) :
    respondToInvitation invitationId .accepted role s = (.error "User is already in a team", s) := by
  rw [joinerOf] at hbusy
  by_cases ht : (inv.type == InvType.joinRequest) = true
  · rw [if_pos ht] at hbusy
    simp [respondToInvitation, hc, hfind, ht, hbusy]
  · rw [if_neg ht] at hbusy
    simp [respondToInvitation, hc, hfind, ht, hbusy]

theorem respondToInvitation_team_gone {invitationId : Nat} {role : Option String}
    {s : Store} {inv : Invitation} (hc : s.configured = true)
    (hfind : (s.invitations.find? fun i => i.id == invitationId) = some inv)
    (hfree : ((getProfile (joinerOf inv) s).bind UserProfile.teamId).isSome = false)
    (hteam : getTeam inv.teamId s = none) :
    respondToInvitation invitationId .accepted role s = (.error "Team no longer exists", s) := by
  rw [joinerOf] at hfree
  by_cases ht : (inv.type == InvType.joinRequest) = true
  · rw [if_pos ht] at hfree
    simp [respondToInvitation, hc, hfind, ht, hfree, hteam]
  · rw [if_neg ht] at hfree
    simp [respondToInvitation, hc, hfind, ht, hfree, hteam]

theorem respondToInvitation_full {invitationId : Nat} {role : Option String}
    {s : Store} {inv : Invitation} {team : Team} (hc : s.configured = true)
    (hfind : (s.invitations.find? fun i => i.id == invitationId) = some inv)
    (hfree : ((getProfile (joinerOf inv) s).bind UserProfile.teamId).isSome = false)
    (hteam : getTeam inv.teamId s = some team)
    (hfull : team.members.length ≥ team.maxMembers) :
    respondToInvitation invitationId .accepted role s = (.error "Team is full", s) := by
  rw [joinerOf] at hfree
  by_cases ht : (inv.type == InvType.joinRequest) = true
  · rw [if_pos ht] at hfree
    simp [respondToInvitation, hc, hfind, ht, hfree, hteam, hfull]
  · rw [if_neg ht] at hfree
    simp [respondToInvitation, hc, hfind, ht, hfree, hteam, hfull]

theorem respondToInvitation_rejected {invitationId : Nat} {role : Option String}
    {s : Store} {inv : Invitation} (hc : s.configured = true)
    (hfind : (s.invitations.find? fun i => i.id == invitationId) = some inv) :
    respondToInvitation invitationId .rejected role s = (.ok (),
      { s with
        invitations := s.invitations.map (fun i =>
          if i.id == invitationId then { i with status := .rejected } else i),
        notifications := s.notifications ++
          [{ id := s.nextId, toUserId := inv.fromUserId, fromUserId := inv.toUserId,
             fromUserName := strOr ((getProfile inv.toUserId s).bind UserProfile.fullName) "User",
             type := .REJECTED, teamId := some inv.teamId, teamName := some inv.teamName,
             message := some (if inv.type == InvType.joinRequest then
                 "Your request to join " ++ inv.teamName ++ " was declined"
               else inv.toUserName ++ " declined your invitation to join " ++ inv.teamName),
             read := false }],
        nextId := s.nextId + 1 }) := by
  simp [respondToInvitation, hc, hfind, createNotification, getProfile,
    ResponseStatus.toInvStatus]

/-- The displayed name of the joining user (`joiningUserName` in the source). -/
def joinerNameOf (inv : Invitation) : String :=
  if inv.type == InvType.joinRequest then inv.fromUserName else inv.toUserName

/-- The role the joining user is added with (`joiningRole` in the source). -/
def joiningRoleOf (inv : Invitation) (role : Option String) (s : Store) : String :=
  strOr ((getProfile (joinerOf inv) s).bind UserProfile.primaryRole) (strOr role "Member")

theorem profilesMap_fullName (l : List (String × UserProfile)) (u v : String)
    (tid : Option Nat) (b : Bool) :
    (((l.map (fun p => if p.1 == v then (p.1, { p.2 with teamId := tid, isTeamLeader := b }) else p)).find?
        (fun p => p.1 == u)).map Prod.snd).bind UserProfile.fullName
    = ((l.find? (fun p => p.1 == u)).map Prod.snd).bind UserProfile.fullName := by
  induction l with
  | nil => rfl
  | cons h t ih =>
    simp only [List.map_cons]
    by_cases hv : (h.1 == v) = true
    · rw [if_pos hv]
      cases hu : (h.1 == u) with
      | true =>
        simp only [List.find?, hu]
        rfl
      | false => simpa only [List.find?, hu] using ih
    · rw [if_neg hv]
      cases hu : (h.1 == u) with
      | true =>
        simp only [List.find?, hu]
      | false => simpa only [List.find?, hu] using ih

theorem find?_comp_fullName (l : List (String × UserProfile)) (u v : String)
    (tid : Option Nat) (b : Bool) :
    (Option.map (Prod.snd ∘ fun p =>
        if p.1 = v then (p.1, { p.2 with teamId := tid, isTeamLeader := b }) else p)
      (List.find? ((fun p => p.1 == u) ∘ fun p =>
        if p.1 = v then (p.1, { p.2 with teamId := tid, isTeamLeader := b }) else p) l)).bind
      (fun a => a.fullName)
    = (Option.map Prod.snd (List.find? (fun p => p.1 == u) l)).bind (fun a => a.fullName) := by
  induction l with
  | nil => rfl
  | cons h t ih =>
    by_cases hv : h.1 = v
    · cases hu : (h.1 == u) with
      | true =>
        simp only [List.find?, Function.comp, if_pos hv, hu]
        simp [hv]
      | false =>
        simp only [List.find?, Function.comp, if_pos hv, hu] at ih ⊢
        exact ih
    · cases hu : (h.1 == u) with
      | true =>
        simp only [List.find?, Function.comp, if_neg hv, hu]
        simp [hv]
      | false =>
        simp only [List.find?, Function.comp, if_neg hv, hu] at ih ⊢
        exact ih

theorem respondToInvitation_accepted_success {invitationId : Nat} {role : Option String}
    {s : Store} {inv : Invitation} {team : Team} (hc : s.configured = true)
    (hfind : (s.invitations.find? fun i => i.id == invitationId) = some inv)
    (hfree : ((getProfile (joinerOf inv) s).bind UserProfile.teamId).isSome = false)
    (hteam : getTeam inv.teamId s = some team)
    (hroom : team.members.length < team.maxMembers)
    (hjid : joinerOf inv ≠ "") :
    respondToInvitation invitationId .accepted role s = (.ok (),
      { s with
        invitations := s.invitations.map (fun i =>
          if i.id == invitationId then { i with status := .accepted } else i),
        teams := s.teams.map (fun t =>
          if t.id == inv.teamId then
            { t with members := team.members ++
                [{ userId := joinerOf inv, role := joiningRoleOf inv role s,
                   userName := strOr ((getProfile (joinerOf inv) s).bind UserProfile.fullName) "User" }] }
          else t),
        profiles := s.profiles.map (fun p =>
          if p.1 == joinerOf inv then
            (p.1, { p.2 with teamId := some inv.teamId, isTeamLeader := false })
          else p),
        posts := s.posts ++
          [{ id := s.nextId, authorId := joinerOf inv,
             authorName := strOr ((getProfile (joinerOf inv) s).bind UserProfile.fullName) "User",
             authorAvatar := (getProfile (joinerOf inv) s).bind UserProfile.avatar,
             authorRole := (getProfile (joinerOf inv) s).bind UserProfile.primaryRole,
             type := "member_joined", title := "🎉 Joined team: " ++ team.name,
             description := strOr ((getProfile (joinerOf inv) s).bind UserProfile.fullName) "User" ++
               " joined as " ++ joiningRoleOf inv role s,
             teamId := some inv.teamId, teamName := some team.name }],
        teamMemberDocs := s.teamMemberDocs ++
          [{ id := s.nextId + 1, teamId := inv.teamId, userId := joinerOf inv,
             role := joiningRoleOf inv role s }],
        notifications := s.notifications ++
          [{ id := s.nextId + 2, toUserId := inv.fromUserId, fromUserId := inv.toUserId,
             fromUserName := strOr ((getProfile inv.toUserId s).bind UserProfile.fullName) "User",
             type := .ACCEPTED,
             teamId := some inv.teamId, teamName := some inv.teamName,
             message := some (if inv.type == InvType.joinRequest then
                 "Your request to join " ++ inv.teamName ++ " was accepted!"
               else joinerNameOf inv ++ " accepted your invitation to join " ++ inv.teamName),
             read := false }],
        nextId := s.nextId + 3 }) := by
  rw [joinerOf] at hfree hjid
  have hnf : ¬(team.maxMembers ≤ team.members.length) := Nat.not_le.mpr hroom
  have hteamf : (s.teams.find? fun t => t.id == inv.teamId) = some team := by
    rw [getTeam, if_pos hc] at hteam
    exact hteam
  by_cases ht : (inv.type == InvType.joinRequest) = true
  · rw [if_pos ht] at hfree hjid
    simp only [getProfile, if_pos hc] at hfree
    simp [respondToInvitation, hc, hfind, ht, hfree, hteamf, hnf, hjid,
      addTeamMember, updateTeam, updateProfileTeam, createFeedPost, createNotification,
      getProfile, getTeam, joinerOf, joinerNameOf, joiningRoleOf, ResponseStatus.toInvStatus,
      profilesMap_fullName, find?_comp_fullName]
  · rw [if_neg ht] at hfree hjid
    simp only [getProfile, if_pos hc] at hfree
    simp [respondToInvitation, hc, hfind, ht, hfree, hteamf, hnf, hjid,
      addTeamMember, updateTeam, updateProfileTeam, createFeedPost, createNotification,
      getProfile, getTeam, joinerOf, joinerNameOf, joiningRoleOf, ResponseStatus.toInvStatus,
      profilesMap_fullName, find?_comp_fullName]

theorem removeTeamMember_not_configured {teamId : Nat} {userId : String} {s : Store}
    (hc : s.configured = false) :
    removeTeamMember teamId userId s = (.ok (), s) := by
  simp [removeTeamMember, hc]

theorem removeTeamMember_no_team {teamId : Nat} {userId : String} {s : Store}
    (hc : s.configured = true) (hteam : getTeam teamId s = none) :
    removeTeamMember teamId userId s = (.ok (), s) := by
  simp [removeTeamMember, hc, hteam]

theorem removeTeamMember_success {teamId : Nat} {userId : String} {s : Store} {team : Team}
    (hc : s.configured = true) (hteam : getTeam teamId s = some team)
    (huid : userId ≠ "") :
    removeTeamMember teamId userId s = (.ok (),
      { s with
        teams := s.teams.map (fun t =>
          if t.id == teamId then
            { t with members := team.members.filter (fun m => !(m.userId == userId)) }
          else t),
        profiles := s.profiles.map (fun p =>
          if p.1 == userId then (p.1, { p.2 with teamId := none, isTeamLeader := false })
          else p),
        teamMemberDocs := s.teamMemberDocs.filter (fun m =>
          !(m.teamId == teamId && m.userId == userId)) }) := by
  simp [removeTeamMember, hc, hteam, updateTeam, updateProfileTeam, huid]

theorem removeTeamMember_empty_uid {teamId : Nat} {s : Store} {team : Team}
    (hc : s.configured = true) (hteam : getTeam teamId s = some team) :
    removeTeamMember teamId "" s = (.error "User ID is required for profile update",
      updateTeam teamId (team.members.filter (fun m => !(m.userId == ""))) s) := by
  simp [removeTeamMember, hc, hteam, updateProfileTeam, updateTeam]

theorem terminateTeam_not_configured {teamId : Nat} {leaderId : String} {s : Store}
    (hc : s.configured = false) :
    terminateTeam teamId leaderId s = (.ok (), s) := by
  simp [terminateTeam, hc]

theorem terminateTeam_no_team {teamId : Nat} {leaderId : String} {s : Store}
    (hc : s.configured = true) (hteam : getTeam teamId s = none) :
    terminateTeam teamId leaderId s = (.error "Team not found", s) := by
  simp [terminateTeam, hc, hteam]

theorem terminateTeam_not_leader {teamId : Nat} {leaderId : String} {s : Store} {team : Team}
    (hc : s.configured = true) (hteam : getTeam teamId s = some team)
    (hld : team.leaderId ≠ leaderId) :
    terminateTeam teamId leaderId s = (.error "Only team leader can terminate the team", s) := by
  simp [terminateTeam, hc, hteam, hld]

theorem terminateTeam_leader {teamId : Nat} {leaderId : String} {s : Store} {team : Team}
    (hc : s.configured = true) (hteam : getTeam teamId s = some team)
    (hld : team.leaderId = leaderId) :
    terminateTeam teamId leaderId s =
      (match resetProfiles team.members s with
       | (.error e, s1) => (.error e, s1)
       | (.ok _, s1) =>
         (.ok (), { s1 with
           teamMemberDocs := s1.teamMemberDocs.filter (fun m => !(m.teamId == teamId)),
           invitations := s1.invitations.filter (fun i => !(i.teamId == teamId)),
           teams := s1.teams.filter (fun t => !(t.id == teamId)) })) := by
  simp only [terminateTeam, hc, hteam, hld]
  simp

theorem teams_map_id (l : List Team) (f : Team → Team) (hf : ∀ t, (f t).id = t.id) :
    (l.map f).map Team.id = l.map Team.id := by
  rw [List.map_map]
  exact List.map_congr_left fun t _ => hf t

theorem nodup_team_unique {l : List Team} (h : (l.map Team.id).Nodup)
    {t1 t2 : Team} (h1 : t1 ∈ l) (h2 : t2 ∈ l) (hid : t1.id = t2.id) : t1 = t2 :=
  List.inj_on_of_nodup_map h h1 h2 hid

theorem OneTeamInv_remap_teams {tid : Nat} {s : Store} (team : Team)
    (newMembers : List TeamMember) {s' : Store}
    (hteams : s'.teams = s.teams.map (fun t =>
      if t.id == tid then { t with members := newMembers } else t))
    (hprofiles : s'.profiles = s.profiles)
    (hn : s.nextId ≤ s'.nextId)
    (hteam : team ∈ s.teams) (hid : team.id = tid)
    (hsub : ∀ u, u ∈ team.members.map TeamMember.userId → u ∈ newMembers.map TeamMember.userId)
    (h : OneTeamInv s) : OneTeamInv s' := by
  obtain ⟨h1, h2, h3⟩ := h
  have hidmap : ∀ t : Team,
      ((fun t => if t.id == tid then { t with members := newMembers } else t) t).id = t.id := by
    intro t
    show (if (t.id == tid) = true then { t with members := newMembers } else t).id = t.id
    by_cases htid : (t.id == tid) = true
    · rw [if_pos htid]
    · rw [if_neg htid]
  refine ⟨?_, ?_, ?_⟩
  · rw [hteams, teams_map_id _ _ hidmap]
    exact h1
  · intro p hp tid' hsome
    rw [hprofiles] at hp
    obtain ⟨t0, ht0, ht0id, hpmem⟩ := h2 p hp tid' hsome
    refine ⟨(fun t => if t.id == tid then { t with members := newMembers } else t) t0,
      hteams ▸ List.mem_map_of_mem _ ht0, (hidmap t0).trans ht0id, ?_⟩
    by_cases htid : (t0.id == tid) = true
    · have ht0tid : t0.id = tid := by simpa using htid
      have ht0team : t0 = team := nodup_team_unique h1 ht0 hteam (ht0tid.trans hid.symm)
      show p.1 ∈ (if (t0.id == tid) = true then { t0 with members := newMembers } else t0).members.map TeamMember.userId
      rw [if_pos htid]
      exact hsub _ (ht0team ▸ hpmem)
    · show p.1 ∈ (if (t0.id == tid) = true then { t0 with members := newMembers } else t0).members.map TeamMember.userId
      rw [if_neg htid]
      exact hpmem
  · intro t ht
    rw [hteams] at ht
    obtain ⟨t0, ht0, rfl⟩ := List.mem_map.mp ht
    calc ((fun t => if t.id == tid then { t with members := newMembers } else t) t0).id
        = t0.id := hidmap t0
      _ < s.nextId := h3 t0 ht0
      _ ≤ s'.nextId := hn

theorem OneTeamInv_congr {s s' : Store} (ht : s'.teams = s.teams)
    (hp : s'.profiles = s.profiles) (hn : s.nextId ≤ s'.nextId)
    (h : OneTeamInv s) : OneTeamInv s' := by
  obtain ⟨h1, h2, h3⟩ := h
  refine ⟨ht ▸ h1, ?_, ?_⟩
  · intro p hp' tid hsome
    rw [hp] at hp'
    rw [ht]
    exact h2 p hp' tid hsome
  · intro t htm
    rw [ht] at htm
    exact lt_of_lt_of_le (h3 t htm) hn

theorem OneTeamInv_join {tid : Nat} {uid : String} {s : Store} (team : Team)
    {newMembers : List TeamMember} {s' : Store}
    (hteams : s'.teams = s.teams.map (fun t =>
      if t.id == tid then { t with members := newMembers } else t))
    (hprofiles : s'.profiles = s.profiles.map (fun p =>
      if p.1 == uid then (p.1, { p.2 with teamId := some tid, isTeamLeader := false }) else p))
    (hn : s.nextId ≤ s'.nextId)
    (hteam : team ∈ s.teams) (hid : team.id = tid)
    (hsub : ∀ u, u ∈ team.members.map TeamMember.userId → u ∈ newMembers.map TeamMember.userId)
    (huid : uid ∈ newMembers.map TeamMember.userId)
    (h : OneTeamInv s) : OneTeamInv s' := by
  obtain ⟨h1, h2, h3⟩ := h
  have hidmap : ∀ t : Team,
      ((fun t => if t.id == tid then { t with members := newMembers } else t) t).id = t.id := by
    intro t
    show (if (t.id == tid) = true then { t with members := newMembers } else t).id = t.id
    by_cases htid : (t.id == tid) = true
    · rw [if_pos htid]
    · rw [if_neg htid]
  have hnewteam : (if (team.id == tid) = true then { team with members := newMembers } else team)
      ∈ s'.teams := by
    rw [hteams]
    exact List.mem_map_of_mem _ hteam
  refine ⟨?_, ?_, ?_⟩
  · rw [hteams, teams_map_id _ _ hidmap]
    exact h1
  · intro p hp tid' hsome
    rw [hprofiles] at hp
    obtain ⟨q, hq, hqeq⟩ := List.mem_map.mp hp
    by_cases hkey : (q.1 == uid) = true
    · rw [if_pos hkey] at hqeq
      have hq1 : q.1 = uid := by simpa using hkey
      rw [← hqeq] at hsome ⊢
      simp only at hsome
      cases hsome
      refine ⟨_, hnewteam, ?_, ?_⟩
      · rw [if_pos (by simpa using hid)]
        exact hid
      · rw [if_pos (by simpa using hid)]
        simpa [hq1] using huid
    · rw [if_neg hkey] at hqeq
      rw [← hqeq] at hsome ⊢
      obtain ⟨t0, ht0, ht0id, hpmem⟩ := h2 q hq tid' hsome
      refine ⟨(fun t => if t.id == tid then { t with members := newMembers } else t) t0,
        hteams ▸ List.mem_map_of_mem _ ht0, (hidmap t0).trans ht0id, ?_⟩
      by_cases htid : (t0.id == tid) = true
      · have ht0tid : t0.id = tid := by simpa using htid
        have ht0team : t0 = team := nodup_team_unique h1 ht0 hteam (ht0tid.trans hid.symm)
        show q.1 ∈ (if (t0.id == tid) = true then { t0 with members := newMembers } else t0).members.map TeamMember.userId
        rw [if_pos htid]
        exact hsub _ (ht0team ▸ hpmem)
      · show q.1 ∈ (if (t0.id == tid) = true then { t0 with members := newMembers } else t0).members.map TeamMember.userId
        rw [if_neg htid]
        exact hpmem
  · intro t ht
    rw [hteams] at ht
    obtain ⟨t0, ht0, rfl⟩ := List.mem_map.mp ht
    calc ((fun t => if t.id == tid then { t with members := newMembers } else t) t0).id
        = t0.id := hidmap t0
      _ < s.nextId := h3 t0 ht0
      _ ≤ s'.nextId := hn

theorem OneTeamInv_remove {tid : Nat} {uid : String} {s : Store} (team : Team)
    {newMembers : List TeamMember} {s' : Store}
    (hteams : s'.teams = s.teams.map (fun t =>
      if t.id == tid then { t with members := newMembers } else t))
    (hprofiles : s'.profiles = s.profiles.map (fun p =>
      if p.1 == uid then (p.1, { p.2 with teamId := none, isTeamLeader := false }) else p))
    (hn : s.nextId ≤ s'.nextId)
    (hteam : team ∈ s.teams) (hid : team.id = tid)
    (hsub : ∀ u, u ∈ team.members.map TeamMember.userId → u ≠ uid →
      u ∈ newMembers.map TeamMember.userId)
    (h : OneTeamInv s) : OneTeamInv s' := by
  obtain ⟨h1, h2, h3⟩ := h
  have hidmap : ∀ t : Team,
      ((fun t => if t.id == tid then { t with members := newMembers } else t) t).id = t.id := by
    intro t
    show (if (t.id == tid) = true then { t with members := newMembers } else t).id = t.id
    by_cases htid : (t.id == tid) = true
    · rw [if_pos htid]
    · rw [if_neg htid]
  refine ⟨?_, ?_, ?_⟩
  · rw [hteams, teams_map_id _ _ hidmap]
    exact h1
  · intro p hp tid' hsome
    rw [hprofiles] at hp
    obtain ⟨q, hq, hqeq⟩ := List.mem_map.mp hp
    by_cases hkey : (q.1 == uid) = true
    · rw [if_pos hkey] at hqeq
      rw [← hqeq] at hsome
      simp only at hsome
      cases hsome
    · rw [if_neg hkey] at hqeq
      have hq1 : q.1 ≠ uid := by simpa using hkey
      rw [← hqeq] at hsome ⊢
      obtain ⟨t0, ht0, ht0id, hpmem⟩ := h2 q hq tid' hsome
      refine ⟨(fun t => if t.id == tid then { t with members := newMembers } else t) t0,
        hteams ▸ List.mem_map_of_mem _ ht0, (hidmap t0).trans ht0id, ?_⟩
      by_cases htid : (t0.id == tid) = true
      · have ht0tid : t0.id = tid := by simpa using htid
        have ht0team : t0 = team := nodup_team_unique h1 ht0 hteam (ht0tid.trans hid.symm)
        show q.1 ∈ (if (t0.id == tid) = true then { t0 with members := newMembers } else t0).members.map TeamMember.userId
        rw [if_pos htid]
        exact hsub _ (ht0team ▸ hpmem) hq1
      · show q.1 ∈ (if (t0.id == tid) = true then { t0 with members := newMembers } else t0).members.map TeamMember.userId
        rw [if_neg htid]
        exact hpmem
  · intro t ht
    rw [hteams] at ht
    obtain ⟨t0, ht0, rfl⟩ := List.mem_map.mp ht
    calc ((fun t => if t.id == tid then { t with members := newMembers } else t) t0).id
        = t0.id := hidmap t0
      _ < s.nextId := h3 t0 ht0
      _ ≤ s'.nextId := hn

theorem OneTeamInv_appendTeam {s : Store} {newTeam : Team} {s' : Store}
    (hteams : s'.teams = s.teams ++ [newTeam])
    (hnew : newTeam.id = s.nextId)
    (hprofiles : s'.profiles = s.profiles ∨
      (∃ lid : String, lid ∈ newTeam.members.map TeamMember.userId ∧
        s'.profiles = s.profiles.map (fun p =>
          if p.1 == lid then
            (p.1, { p.2 with teamId := some newTeam.id, isTeamLeader := true })
          else p)))
    (hn : s.nextId < s'.nextId)
    (h : OneTeamInv s) : OneTeamInv s' := by
  obtain ⟨h1, h2, h3⟩ := h
  have hA : (s'.teams.map Team.id).Nodup := by
    rw [hteams, List.map_append]
    rw [List.nodup_append]
    refine ⟨h1, List.nodup_singleton _, ?_⟩
    intro a ha hb
    simp only [List.map_cons, List.map_nil, List.mem_singleton] at hb
    obtain ⟨t0, ht0, rfl⟩ := List.mem_map.mp ha
    exact absurd (hb ▸ hnew ▸ h3 t0 ht0) (lt_irrefl _)
  have hC : ∀ team ∈ s'.teams, team.id < s'.nextId := by
    intro t ht
    rw [hteams] at ht
    rcases List.mem_append.mp ht with hl | hr
    · exact lt_of_lt_of_le (h3 t hl) (le_of_lt hn)
    · rw [List.mem_singleton] at hr
      rw [hr, hnew]
      exact hn
  refine ⟨hA, ?_, hC⟩
  rcases hprofiles with hsame | ⟨lid, hlid, hmap⟩
  · intro p hp tid' hsome
    rw [hsame] at hp
    obtain ⟨t0, ht0, ht0id, hpmem⟩ := h2 p hp tid' hsome
    exact ⟨t0, hteams ▸ List.mem_append_left _ ht0, ht0id, hpmem⟩
  · intro p hp tid' hsome
    rw [hmap] at hp
    obtain ⟨q, hq, hqeq⟩ := List.mem_map.mp hp
    by_cases hkey : (q.1 == lid) = true
    · rw [if_pos hkey] at hqeq
      have hq1 : q.1 = lid := by simpa using hkey
      rw [← hqeq] at hsome ⊢
      simp only at hsome
      cases hsome
      refine ⟨newTeam, hteams ▸ List.mem_append_right _ (List.mem_singleton_self _), rfl, ?_⟩
      simpa [hq1] using hlid
    · rw [if_neg hkey] at hqeq
      rw [← hqeq] at hsome ⊢
      obtain ⟨t0, ht0, ht0id, hpmem⟩ := h2 q hq tid' hsome
      exact ⟨t0, hteams ▸ List.mem_append_left _ ht0, ht0id, hpmem⟩

theorem OneTeamInv_profiles_reset_map {u : String} {b : Bool} {s s' : Store}
    (hteams : s'.teams = s.teams) (hn : s.nextId ≤ s'.nextId)
    (hprofiles : s'.profiles = s.profiles.map (fun p =>
      if p.1 == u then (p.1, { p.2 with teamId := none, isTeamLeader := b }) else p))
    (h : OneTeamInv s) : OneTeamInv s' := by
  obtain ⟨h1, h2, h3⟩ := h
  refine ⟨hteams ▸ h1, ?_, ?_⟩
  · intro p hp tid' hsome
    rw [hprofiles] at hp
    obtain ⟨q, hq, hqeq⟩ := List.mem_map.mp hp
    by_cases hkey : (q.1 == u) = true
    · rw [if_pos hkey] at hqeq
      rw [← hqeq] at hsome
      simp only at hsome
      cases hsome
    · rw [if_neg hkey] at hqeq
      rw [← hqeq] at hsome ⊢
      rw [hteams]
      exact h2 q hq tid' hsome
  · intro t ht
    rw [hteams] at ht
    exact lt_of_lt_of_le (h3 t ht) hn

theorem OneTeamInv_updateProfileTeam_none {u : String} {b : Bool} {s : Store}
    (h : OneTeamInv s) : OneTeamInv (updateProfileTeam u none b s).2 := by
  by_cases hc : s.configured = true
  · by_cases hu : u = ""
    · simpa [updateProfileTeam, hc, hu] using h
    · exact OneTeamInv_profiles_reset_map (u := u) (b := b)
        (by simp [updateProfileTeam, hc, hu]) (by simp [updateProfileTeam, hc, hu])
        (by simp [updateProfileTeam, hc, hu]) h
  · simpa [updateProfileTeam, Bool.of_not_eq_true hc] using h

theorem OneTeamInv_resetProfiles (ms : List TeamMember) (s : Store)
    (h : OneTeamInv s) : OneTeamInv (resetProfiles ms s).2 := by
  induction ms generalizing s with
  | nil => simpa [resetProfiles] using h
  | cons m rest ih =>
    simp only [resetProfiles]
    have hstep := OneTeamInv_updateProfileTeam_none (u := m.userId) (b := false) (s := s) h
    rcases hres : updateProfileTeam m.userId none false s with ⟨r, s1⟩
    cases r with
    | error e =>
      rw [hres] at hstep
      exact hstep
    | ok _ =>
      rw [hres] at hstep
      exact ih s1 hstep

theorem updateProfileTeam_noop {u : String} {tid : Option Nat} {b : Bool} {s : Store}
    (h : s.configured = false ∨ u = "") :
    (updateProfileTeam u tid b s).2 = s := by
  rcases h with hc | hu
  · simp [updateProfileTeam, hc]
  · by_cases hc : s.configured = true
    · simp [updateProfileTeam, hc, hu]
    · simp [updateProfileTeam, Bool.of_not_eq_true hc]

theorem updateProfileTeam_profiles_of {u : String} {tid : Option Nat} {b : Bool} {s : Store}
    (hc : s.configured = true) (hu : u ≠ "") :
    (updateProfileTeam u tid b s).2.profiles = s.profiles.map (fun p =>
      if p.1 == u then (p.1, { p.2 with teamId := tid, isTeamLeader := b }) else p) := by
  simp [updateProfileTeam, hc, hu]

theorem updateProfileTeam_shape (u : String) (tid : Option Nat) (b : Bool) (s : Store) :
    (updateProfileTeam u tid b s).2.configured = s.configured ∧
    (updateProfileTeam u tid b s).2.teams = s.teams ∧
    (updateProfileTeam u tid b s).2.teamMemberDocs = s.teamMemberDocs ∧
    (updateProfileTeam u tid b s).2.invitations = s.invitations ∧
    (updateProfileTeam u tid b s).2.notifications = s.notifications ∧
    (updateProfileTeam u tid b s).2.posts = s.posts ∧
    (updateProfileTeam u tid b s).2.conversations = s.conversations ∧
    (updateProfileTeam u tid b s).2.messages = s.messages ∧
    (updateProfileTeam u tid b s).2.nextId = s.nextId := by
  by_cases hc : s.configured = true
  · by_cases hu : u = ""
    · simp [updateProfileTeam, hc, hu]
    · simp [updateProfileTeam, hc, hu]
  · simp [updateProfileTeam, Bool.of_not_eq_true hc]

theorem resetProfiles_shape (ms : List TeamMember) (s : Store) :
    (resetProfiles ms s).2.configured = s.configured ∧
    (resetProfiles ms s).2.teams = s.teams ∧
    (resetProfiles ms s).2.teamMemberDocs = s.teamMemberDocs ∧
    (resetProfiles ms s).2.invitations = s.invitations ∧
    (resetProfiles ms s).2.notifications = s.notifications ∧
    (resetProfiles ms s).2.posts = s.posts ∧
    (resetProfiles ms s).2.nextId = s.nextId := by
  induction ms generalizing s with
  | nil => simp [resetProfiles]
  | cons m rest ih =>
    simp only [resetProfiles]
    rcases hres : updateProfileTeam m.userId none false s with ⟨r, s1⟩
    have hsh := updateProfileTeam_shape m.userId none false s
    rw [hres] at hsh
    obtain ⟨e1, e2, e3, e4, e5, e6, e7, e8, e9⟩ := hsh
    cases r with
    | error e => exact ⟨e1, e2, e3, e4, e5, e6, e9⟩
    | ok _ =>
      obtain ⟨f1, f2, f3, f4, f5, f6, f7⟩ := ih s1
      exact ⟨f1.trans e1, f2.trans e2, f3.trans e3, f4.trans e4, f5.trans e5,
        f6.trans e6, f7.trans e9⟩

theorem updateProfileTeam_keeps_none {u k : String} {b : Bool} {s : Store}
    (h0 : ∀ p ∈ s.profiles, p.1 = k → p.2.teamId = none) :
    ∀ p ∈ (updateProfileTeam u none b s).2.profiles, p.1 = k → p.2.teamId = none := by
  by_cases hok : s.configured = false ∨ u = ""
  · rw [updateProfileTeam_noop hok]
    exact h0
  · push_neg at hok
    obtain ⟨hc, hu⟩ := hok
    rw [updateProfileTeam_profiles_of (Bool.not_eq_false _ ▸ hc) hu]
    intro p hp hk
    obtain ⟨q, hq, hqeq⟩ := List.mem_map.mp hp
    by_cases hkey : (q.1 == u) = true
    · rw [if_pos hkey] at hqeq
      rw [← hqeq]
    · rw [if_neg hkey] at hqeq
      rw [← hqeq] at hk ⊢
      exact h0 q hq hk

theorem updateProfileTeam_resets {u : String} {b : Bool} {s : Store}
    (hc : s.configured = true) (hu : u ≠ "") :
    ∀ p ∈ (updateProfileTeam u none b s).2.profiles, p.1 = u → p.2.teamId = none := by
  rw [updateProfileTeam_profiles_of hc hu]
  intro p hp hk
  obtain ⟨q, hq, hqeq⟩ := List.mem_map.mp hp
  by_cases hkey : (q.1 == u) = true
  · rw [if_pos hkey] at hqeq
    rw [← hqeq]
  · rw [if_neg hkey] at hqeq
    rw [← hqeq] at hk
    exact absurd hk (by simpa using hkey)

theorem resetProfiles_keeps_none (ms : List TeamMember) (s : Store) (k : String)
    (h0 : ∀ p ∈ s.profiles, p.1 = k → p.2.teamId = none) :
    ∀ p ∈ (resetProfiles ms s).2.profiles, p.1 = k → p.2.teamId = none := by
  induction ms generalizing s with
  | nil => simpa [resetProfiles] using h0
  | cons m rest ih =>
    simp only [resetProfiles]
    have hstep := updateProfileTeam_keeps_none (u := m.userId) (b := false) h0
    rcases hres : updateProfileTeam m.userId none false s with ⟨r, s1⟩
    rw [hres] at hstep
    cases r with
    | error e => exact hstep
    | ok _ => exact ih s1 hstep

theorem resetProfiles_resets (ms : List TeamMember) (s : Store)
    (hc : s.configured = true) (hok : (resetProfiles ms s).1 = .ok ()) :
    ∀ p ∈ (resetProfiles ms s).2.profiles,
      p.1 ∈ ms.map TeamMember.userId → p.2.teamId = none := by
  induction ms generalizing s with
  | nil => simp
  | cons m rest ih =>
    simp only [resetProfiles] at hok ⊢
    rcases hres : updateProfileTeam m.userId none false s with ⟨r, s1⟩
    rw [hres] at hok
    cases r with
    | error e => simp at hok
    | ok _ =>
      simp only [] at hok
      have hu : m.userId ≠ "" := by
        intro habs
        have hnoop : updateProfileTeam m.userId none false s =
            (.error "User ID is required for profile update", s) := by
          simp [updateProfileTeam, hc, habs]
        rw [hres] at hnoop
        simp at hnoop
      have hstep : ∀ p ∈ s1.profiles, p.1 = m.userId → p.2.teamId = none := by
        have hr := updateProfileTeam_resets (u := m.userId) (b := false) (s := s) hc hu
        rw [hres] at hr
        exact hr
      have hc1 : s1.configured = true := by
        have hsh := (updateProfileTeam_shape m.userId none false s).1
        rw [hres] at hsh
        rw [hsh]
        exact hc
      intro p hp hmem
      simp only [List.map_cons, List.mem_cons] at hmem
      rcases hmem with hm | hrest
      · exact resetProfiles_keeps_none rest s1 m.userId hstep p hp hm
      · exact ih s1 hc1 hok p hp hrest

theorem createTeam_not_configured {d : CreateTeamData} {s : Store}
    (hc : s.configured = false) : createTeam d s = (.ok none, s) := by
  simp [createTeam, hc]

theorem createTeam_success {d : CreateTeamData} {s : Store}
    (hc : s.configured = true) (hl : d.leaderId ≠ "") :
    createTeam d s = (.ok (some s.nextId),
      { s with
        teams := s.teams ++
          [{ id := s.nextId, name := d.name, description := d.description,
             leaderId := d.leaderId,
             leaderName := strOr ((getProfile d.leaderId s).bind UserProfile.fullName) "User",
             maxMembers := d.maxMembers,
             members := [{ userId := d.leaderId, role := "Team Leader",
                           userName := strOr ((getProfile d.leaderId s).bind UserProfile.fullName) "User" }],
             status := d.status, rolesNeeded := d.rolesNeeded }],
        profiles := s.profiles.map (fun p =>
          if p.1 == d.leaderId then
            (p.1, { p.2 with teamId := some s.nextId, isTeamLeader := true })
          else p),
        posts := s.posts ++
          [{ id := s.nextId + 1, authorId := d.leaderId,
             authorName := strOr ((getProfile d.leaderId s).bind UserProfile.fullName) "User",
             authorAvatar := (getProfile d.leaderId s).bind UserProfile.avatar,
             authorRole := (getProfile d.leaderId s).bind UserProfile.primaryRole,
             type := "team_created", title := "🚀 Created team: " ++ d.name,
             description := d.description, teamId := some s.nextId,
             teamName := some d.name, rolesNeeded := d.rolesNeeded }],
        nextId := s.nextId + 2 }) := by
  simp [createTeam, updateProfileTeam, createFeedPost, hc, hl]

theorem createTeam_empty_leader {d : CreateTeamData} {s : Store}
    (hc : s.configured = true) (hl : d.leaderId = "") :
    createTeam d s = (.error "User ID is required for profile update",
      { s with
        teams := s.teams ++
          [{ id := s.nextId, name := d.name, description := d.description,
             leaderId := d.leaderId,
             leaderName := strOr ((getProfile d.leaderId s).bind UserProfile.fullName) "User",
             maxMembers := d.maxMembers,
             members := [{ userId := d.leaderId, role := "Team Leader",
                           userName := strOr ((getProfile d.leaderId s).bind UserProfile.fullName) "User" }],
             status := d.status, rolesNeeded := d.rolesNeeded }],
        nextId := s.nextId + 1 }) := by
  simp [createTeam, updateProfileTeam, hc, hl]

theorem respondToInvitation_accepted_empty_joiner {invitationId : Nat} {role : Option String}
    {s : Store} {inv : Invitation} {team : Team} (hc : s.configured = true)
    (hfind : (s.invitations.find? fun i => i.id == invitationId) = some inv)
    (hfree : ((getProfile (joinerOf inv) s).bind UserProfile.teamId).isSome = false)
    (hteam : getTeam inv.teamId s = some team)
    (hroom : team.members.length < team.maxMembers)
    (hjid : joinerOf inv = "") :
    respondToInvitation invitationId .accepted role s =
      (.error "User ID is required for profile update",
      { s with
        invitations := s.invitations.map (fun i =>
          if i.id == invitationId then { i with status := .accepted } else i),
        teams := s.teams.map (fun t =>
          if t.id == inv.teamId then
            { t with members := team.members ++
                [{ userId := joinerOf inv, role := joiningRoleOf inv role s,
                   userName := strOr ((getProfile (joinerOf inv) s).bind UserProfile.fullName) "User" }] }
          else t) }) := by
  rw [joinerOf] at hfree hjid
  have hnf : ¬(team.maxMembers ≤ team.members.length) := Nat.not_le.mpr hroom
  have hteamf : (s.teams.find? fun t => t.id == inv.teamId) = some team := by
    rw [getTeam, if_pos hc] at hteam
    exact hteam
  by_cases ht : (inv.type == InvType.joinRequest) = true
  · rw [if_pos ht] at hfree hjid
    rw [hjid] at hfree
    simp only [getProfile, if_pos hc] at hfree
    simp [respondToInvitation, hc, hfind, ht, hfree, hteamf, hnf, hjid,
      addTeamMember, updateTeam, updateProfileTeam, createFeedPost, createNotification,
      getProfile, getTeam, joinerOf, joinerNameOf, joiningRoleOf, ResponseStatus.toInvStatus]
  · rw [if_neg ht] at hfree hjid
    rw [hjid] at hfree
    simp only [getProfile, if_pos hc] at hfree
    simp [respondToInvitation, hc, hfind, ht, hfree, hteamf, hnf, hjid,
      addTeamMember, updateTeam, updateProfileTeam, createFeedPost, createNotification,
      getProfile, getTeam, joinerOf, joinerNameOf, joiningRoleOf, ResponseStatus.toInvStatus]

theorem OneTeamInv_addTeamMember (teamId : Nat) (userId role : String) (s : Store)
    (h : OneTeamInv s) : OneTeamInv (addTeamMember teamId userId role s).2 := by
  by_cases hc : s.configured = true
  · by_cases hbusy : ((getProfile userId s).bind UserProfile.teamId).isSome = true
    · rw [addTeamMember_already_in_team hc hbusy]
      exact h
    · have hfree : ((getProfile userId s).bind UserProfile.teamId).isSome = false := by
        simpa using hbusy
      cases hgt : getTeam teamId s with
      | none =>
        rw [addTeamMember_no_team hc hfree hgt]
        exact h
      | some team =>
        by_cases hfull : team.members.length ≥ team.maxMembers
        · rw [addTeamMember_full hc hfree hgt hfull]
          exact h
        · have hroom : team.members.length < team.maxMembers := Nat.not_le.mp hfull
          obtain ⟨hmem, hid⟩ := getTeam_mem hgt
          by_cases huid : userId = ""
          · subst huid
            rw [addTeamMember_empty_uid hc hfree hgt hroom]
            refine OneTeamInv_remap_teams team (team.members ++
              [{ userId := "", role := role,
                 userName := strOr ((getProfile "" s).bind UserProfile.fullName) "User" }])
              ?_ ?_ ?_ hmem hid ?_ h
            · simp [updateTeam, hc]
            · simp [updateTeam, hc]
            · simp [updateTeam, hc]
            · intro u hu
              rw [List.map_append]
              exact List.mem_append_left _ hu
          · rw [addTeamMember_success hc hfree hgt hroom huid]
            refine OneTeamInv_join team rfl rfl ?_ hmem hid ?_ ?_ h
            · simp
            · intro u hu
              rw [List.map_append]
              exact List.mem_append_left _ hu
            · rw [List.map_append]
              exact List.mem_append_right _ (by simp)
  · rw [addTeamMember_not_configured (Bool.of_not_eq_true hc)]
    exact h

theorem OneTeamInv_createTeam (d : CreateTeamData) (s : Store)
    (h : OneTeamInv s) : OneTeamInv (createTeam d s).2 := by
  by_cases hc : s.configured = true
  · by_cases hl : d.leaderId = ""
    · rw [createTeam_empty_leader hc hl]
      refine OneTeamInv_appendTeam rfl rfl (Or.inl rfl) (by simp) h
    · rw [createTeam_success hc hl]
      refine OneTeamInv_appendTeam rfl rfl (Or.inr ⟨d.leaderId, by simp, rfl⟩) (by simp) h
  · rw [createTeam_not_configured (Bool.of_not_eq_true hc)]
    exact h

theorem OneTeamInv_removeTeamMember (teamId : Nat) (userId : String) (s : Store)
    (huid : userId ≠ "") (h : OneTeamInv s) :
    OneTeamInv (removeTeamMember teamId userId s).2 := by
  by_cases hc : s.configured = true
  · cases hgt : getTeam teamId s with
    | none =>
      rw [removeTeamMember_no_team hc hgt]
      exact h
    | some team =>
      obtain ⟨hmem, hid⟩ := getTeam_mem hgt
      rw [removeTeamMember_success hc hgt huid]
      refine OneTeamInv_remove team rfl rfl (by simp) hmem hid ?_ h
      intro u hu hne
      obtain ⟨m, hm, hmeq⟩ := List.mem_map.mp hu
      refine List.mem_map.mpr ⟨m, List.mem_filter.mpr ⟨hm, ?_⟩, hmeq⟩
      simp only [Bool.not_eq_true']
      rw [← hmeq] at hne
      simpa using hne
  · rw [removeTeamMember_not_configured (Bool.of_not_eq_true hc)]
    exact h

theorem OneTeamInv_terminateTeam (teamId : Nat) (leaderId : String) (s : Store)
    (h : OneTeamInv s) : OneTeamInv (terminateTeam teamId leaderId s).2 := by
  by_cases hc : s.configured = true
  · cases hgt : getTeam teamId s with
    | none =>
      rw [terminateTeam_no_team hc hgt]
      exact h
    | some team =>
      obtain ⟨hmem, hid⟩ := getTeam_mem hgt
      by_cases hld : team.leaderId = leaderId
      · rw [terminateTeam_leader hc hgt hld]
        have hinv1 := OneTeamInv_resetProfiles team.members s h
        obtain ⟨sh1, sh2, sh3, sh4, sh5, sh6, sh7⟩ := resetProfiles_shape team.members s
        rcases hloop : resetProfiles team.members s with ⟨r, s1⟩
        rw [hloop] at hinv1 sh1 sh2 sh3 sh4 sh5 sh6 sh7
        cases r with
        | error e => exact hinv1
        | ok _ =>
          obtain ⟨i1, i2, i3⟩ := hinv1
          have hreset := resetProfiles_resets team.members s hc (by rw [hloop])
          rw [hloop] at hreset
          refine ⟨?_, ?_, ?_⟩
          · exact ((List.filter_sublist _).map Team.id).nodup i1
          · intro p hp tid' hsome
            obtain ⟨t0, ht0, ht0id, hpmem⟩ := i2 p hp tid' hsome
            have ht0ne : t0.id ≠ teamId := by
              intro habs
              have ht0team : t0 = team := by
                refine nodup_team_unique i1 ht0 ?_ (habs.trans hid.symm)
                rw [sh2]
                exact hmem
              have : p.2.teamId = none := by
                refine hreset p hp ?_
                rw [← ht0team]
                exact hpmem
              rw [this] at hsome
              cases hsome
            refine ⟨t0, ?_, ht0id, hpmem⟩
            exact List.mem_filter.mpr ⟨ht0, by simpa using ht0ne⟩
          · intro t ht
            exact i3 t (List.mem_of_mem_filter ht)
      · rw [terminateTeam_not_leader hc hgt hld]
        exact h
  · rw [terminateTeam_not_configured (Bool.of_not_eq_true hc)]
    exact h

theorem OneTeamInv_respondToInvitation (invitationId : Nat) (status : ResponseStatus)
    (role : Option String) (s : Store) (h : OneTeamInv s) :
    OneTeamInv (respondToInvitation invitationId status role s).2 := by
  by_cases hc : s.configured = true
  · cases hfind : s.invitations.find? fun i => i.id == invitationId with
    | none =>
      rw [respondToInvitation_not_found hc hfind]
      exact h
    | some inv =>
      cases status with
      | rejected =>
        rw [respondToInvitation_rejected hc hfind]
        exact OneTeamInv_congr (s := s) rfl rfl (by simp) h
      | accepted =>
        by_cases hbusy : ((getProfile (joinerOf inv) s).bind UserProfile.teamId).isSome = true
        · rw [respondToInvitation_already_in_team hc hfind hbusy]
          exact h
        · have hfree : ((getProfile (joinerOf inv) s).bind UserProfile.teamId).isSome = false := by
            simpa using hbusy
          cases hgt : getTeam inv.teamId s with
          | none =>
            rw [respondToInvitation_team_gone hc hfind hfree hgt]
            exact h
          | some team =>
            by_cases hfull : team.members.length ≥ team.maxMembers
            · rw [respondToInvitation_full hc hfind hfree hgt hfull]
              exact h
            · have hroom : team.members.length < team.maxMembers := Nat.not_le.mp hfull
              obtain ⟨hmem, hid⟩ := getTeam_mem hgt
              by_cases hjid : joinerOf inv = ""
              · rw [respondToInvitation_accepted_empty_joiner hc hfind hfree hgt hroom hjid]
                refine OneTeamInv_remap_teams team _ rfl rfl (by simp) hmem hid ?_ h
                intro u hu
                rw [List.map_append]
                exact List.mem_append_left _ hu
              · rw [respondToInvitation_accepted_success hc hfind hfree hgt hroom hjid]
                refine OneTeamInv_join team rfl rfl (by simp) hmem hid ?_ ?_ h
                · intro u hu
                  rw [List.map_append]
                  exact List.mem_append_left _ hu
                · rw [List.map_append]
                  exact List.mem_append_right _ (by simp)
  · rw [respondToInvitation_not_configured (Bool.of_not_eq_true hc)]
    exact h

theorem Cap_congr {s s' : Store} (ht : s'.teams = s.teams) (h : Cap s) : Cap s' := by
  intro t htm
  rw [ht] at htm
  exact h t htm

theorem Cap_remap_append {tid : Nat} {s : Store} (team : Team) (m : TeamMember) {s' : Store}
    (hnodup : (s.teams.map Team.id).Nodup)
    (hteams : s'.teams = s.teams.map (fun t =>
      if t.id == tid then { t with members := team.members ++ [m] } else t))
    (hteam : team ∈ s.teams) (hid : team.id = tid)
    (hroom : team.members.length < team.maxMembers)
    (h : Cap s) : Cap s' := by
  intro t htm
  rw [hteams] at htm
  obtain ⟨t0, ht0, rfl⟩ := List.mem_map.mp htm
  by_cases htid : (t0.id == tid) = true
  · have ht0tid : t0.id = tid := by simpa using htid
    have ht0team : t0 = team := nodup_team_unique hnodup ht0 hteam (ht0tid.trans hid.symm)
    show (if (t0.id == tid) = true then { t0 with members := team.members ++ [m] } else t0).members.length ≤
      (if (t0.id == tid) = true then { t0 with members := team.members ++ [m] } else t0).maxMembers
    rw [if_pos htid]
    simp only [List.length_append, List.length_cons, List.length_nil]
    rw [ht0team]
    omega
  · show (if (t0.id == tid) = true then { t0 with members := team.members ++ [m] } else t0).members.length ≤
      (if (t0.id == tid) = true then { t0 with members := team.members ++ [m] } else t0).maxMembers
    rw [if_neg htid]
    exact h t0 ht0

theorem Cap_addTeamMember (teamId : Nat) (userId role : String) (s : Store)
    (hnodup : (s.teams.map Team.id).Nodup) (h : Cap s) :
    Cap (addTeamMember teamId userId role s).2 := by
  by_cases hc : s.configured = true
  · by_cases hbusy : ((getProfile userId s).bind UserProfile.teamId).isSome = true
    · rw [addTeamMember_already_in_team hc hbusy]
      exact h
    · have hfree : ((getProfile userId s).bind UserProfile.teamId).isSome = false := by
        simpa using hbusy
      cases hgt : getTeam teamId s with
      | none =>
        rw [addTeamMember_no_team hc hfree hgt]
        exact h
      | some team =>
        obtain ⟨hmem, hid⟩ := getTeam_mem hgt
        by_cases hfull : team.members.length ≥ team.maxMembers
        · rw [addTeamMember_full hc hfree hgt hfull]
          exact h
        · have hroom : team.members.length < team.maxMembers := Nat.not_le.mp hfull
          by_cases huid : userId = ""
          · subst huid
            rw [addTeamMember_empty_uid hc hfree hgt hroom]
            exact Cap_remap_append team
              { userId := "", role := role,
                userName := strOr ((getProfile "" s).bind UserProfile.fullName) "User" }
              hnodup (by simp [updateTeam, hc]) hmem hid hroom h
          · rw [addTeamMember_success hc hfree hgt hroom huid]
            exact Cap_remap_append team _ hnodup rfl hmem hid hroom h
  · rw [addTeamMember_not_configured (Bool.of_not_eq_true hc)]
    exact h

theorem Cap_respondToInvitation (invitationId : Nat) (status : ResponseStatus)
    (role : Option String) (s : Store)
    (hnodup : (s.teams.map Team.id).Nodup) (h : Cap s) :
    Cap (respondToInvitation invitationId status role s).2 := by
  by_cases hc : s.configured = true
  · cases hfind : s.invitations.find? fun i => i.id == invitationId with
    | none =>
      rw [respondToInvitation_not_found hc hfind]
      exact h
    | some inv =>
      cases status with
      | rejected =>
        rw [respondToInvitation_rejected hc hfind]
        exact Cap_congr (s := s) rfl h
      | accepted =>
        by_cases hbusy : ((getProfile (joinerOf inv) s).bind UserProfile.teamId).isSome = true
        · rw [respondToInvitation_already_in_team hc hfind hbusy]
          exact h
        · have hfree : ((getProfile (joinerOf inv) s).bind UserProfile.teamId).isSome = false := by
            simpa using hbusy
          cases hgt : getTeam inv.teamId s with
          | none =>
            rw [respondToInvitation_team_gone hc hfind hfree hgt]
            exact h
          | some team =>
            obtain ⟨hmem, hid⟩ := getTeam_mem hgt
            by_cases hfull : team.members.length ≥ team.maxMembers
            · rw [respondToInvitation_full hc hfind hfree hgt hfull]
              exact h
            · have hroom : team.members.length < team.maxMembers := Nat.not_le.mp hfull
              by_cases hjid : joinerOf inv = ""
              · rw [respondToInvitation_accepted_empty_joiner hc hfind hfree hgt hroom hjid]
                exact Cap_remap_append team _ hnodup rfl hmem hid hroom h
              · rw [respondToInvitation_accepted_success hc hfind hfree hgt hroom hjid]
                exact Cap_remap_append team _ hnodup rfl hmem hid hroom h
  · rw [respondToInvitation_not_configured (Bool.of_not_eq_true hc)]
    exact h

theorem getOrCreateConversation_not_configured {u1 u2 : String} {s : Store}
    (hc : s.configured = false) : getOrCreateConversation u1 u2 s = (none, s) := by
  simp [getOrCreateConversation, hc]

theorem getOrCreateConversation_found {u1 u2 : String} {s : Store} {c : Conversation}
    (hc : s.configured = true) (hfound : convFor u1 u2 s = some c) :
    getOrCreateConversation u1 u2 s = (some c.id, s) := by
  rw [convFor] at hfound
  rw [getOrCreateConversation, if_neg (by simp [hc]), hfound]

theorem getOrCreateConversation_create {u1 u2 : String} {s : Store}
    (hc : s.configured = true) (hnone : convFor u1 u2 s = none) :
    getOrCreateConversation u1 u2 s = (some s.nextId,
      { s with
        conversations := s.conversations ++
          [{ id := s.nextId, participants := [u1, u2],
             participantNames :=
               [(u1, strOr ((getProfile u1 s).bind UserProfile.fullName) "User"),
                (u2, strOr ((getProfile u2 s).bind UserProfile.fullName) "User")],
             participantAvatars :=
               [(u1, strOr ((getProfile u1 s).bind UserProfile.avatar)
                  ("https://api.dicebear.com/7.x/initials/svg?seed=" ++
                    strOr ((getProfile u1 s).bind UserProfile.fullName) "User")),
                (u2, strOr ((getProfile u2 s).bind UserProfile.avatar)
                  ("https://api.dicebear.com/7.x/initials/svg?seed=" ++
                    strOr ((getProfile u2 s).bind UserProfile.fullName) "User"))] }],
        nextId := s.nextId + 1 }) := by
  rw [convFor] at hnone
  rw [getOrCreateConversation, if_neg (by simp [hc]), hnone]

theorem convFor_after_create {u1 u2 : String} {s : Store}
    (hc : s.configured = true) (hnone : convFor u1 u2 s = none) :
    convFor u1 u2 (getOrCreateConversation u1 u2 s).2 =
      some { id := s.nextId, participants := [u1, u2],
             participantNames :=
               [(u1, strOr ((getProfile u1 s).bind UserProfile.fullName) "User"),
                (u2, strOr ((getProfile u2 s).bind UserProfile.fullName) "User")],
             participantAvatars :=
               [(u1, strOr ((getProfile u1 s).bind UserProfile.avatar)
                  ("https://api.dicebear.com/7.x/initials/svg?seed=" ++
                    strOr ((getProfile u1 s).bind UserProfile.fullName) "User")),
                (u2, strOr ((getProfile u2 s).bind UserProfile.avatar)
                  ("https://api.dicebear.com/7.x/initials/svg?seed=" ++
                    strOr ((getProfile u2 s).bind UserProfile.fullName) "User"))] } := by
  rw [getOrCreateConversation_create hc hnone]
  rw [convFor] at hnone ⊢
  simp only []
  rw [List.find?_append, hnone]
  simp [List.find?]

/-- Pending invitations de-duplicated against by `sendInvitation`: same
`fromUserId`, same `teamId`, status `'pending'`. -/
def dupPending (d : SendInvitationData) (s : Store) : List Invitation :=
  s.invitations.filter fun i =>
    i.fromUserId == d.fromUserId && i.teamId == d.teamId && i.status == InvStatus.pending

theorem sendInvitation_success {d : SendInvitationData} {s : Store}
    (hc : s.configured = true)
    (hto : d.type = InvType.invite →
      ((getProfile d.toUserId s).bind UserProfile.teamId).isSome = false)
    (hfrom : d.type = InvType.joinRequest →
      ((getProfile d.fromUserId s).bind UserProfile.teamId).isSome = false)
    (hdup : dupPending d s = []) :
    sendInvitation d s = (.ok (),
      { s with
        invitations := s.invitations ++
          [{ id := s.nextId, type := d.type, status := .pending,
             fromUserId := d.fromUserId, fromUserName := d.fromUserName,
             toUserId := d.toUserId, toUserName := d.toUserName,
             teamId := d.teamId, teamName := d.teamName, message := d.message }],
        notifications := s.notifications ++
          [{ id := s.nextId + 1, toUserId := d.toUserId, fromUserId := d.fromUserId,
             fromUserName := d.fromUserName,
             type := if d.type == InvType.joinRequest then .JOIN_REQUEST else .INVITE,
             teamId := some d.teamId, teamName := some d.teamName,
             message := d.message, read := false }],
        nextId := s.nextId + 2 }) := by
  rw [dupPending] at hdup
  cases htype : d.type with
  | invite =>
    have h1 := hto htype
    simp [sendInvitation, createNotification, hc, htype, h1, hdup, List.isEmpty_iff]
  | joinRequest =>
    have h1 := hfrom htype
    simp [sendInvitation, createNotification, hc, htype, h1, hdup, List.isEmpty_iff]

theorem sendMessage_success {conversationId : Nat} {senderId text : String}
    {s : Store} {conv : Conversation} {recipientId : String}
    (hc : s.configured = true)
    (hfind : (s.conversations.find? fun c => c.id == conversationId) = some conv)
    (hrecip : (conv.participants.find? fun uid => !(uid == senderId)) = some recipientId)
    (hne : recipientId ≠ "") :
    sendMessage conversationId senderId text s = (.ok (some s.nextId),
      { s with
        messages := s.messages ++
          [{ id := s.nextId, conversationId := conversationId,
             participants := conv.participants, senderId := senderId,
             senderName := strOr ((getProfile senderId s).bind UserProfile.fullName) "User",
             text := text, read := false }],
        conversations := s.conversations.map (fun c =>
          if c.id == conversationId then
            { c with lastMessage := some { text := text, senderId := senderId } }
          else c),
        notifications := s.notifications ++
          [{ id := s.nextId + 1, toUserId := recipientId, fromUserId := senderId,
             fromUserName := strOr ((getProfile senderId s).bind UserProfile.fullName) "User",
             type := .MESSAGE,
             message := some (if text.length > 50 then text.take 50 ++ "..." else text),
             conversationId := some conversationId, read := false }],
        nextId := s.nextId + 2 }) := by
  simp [sendMessage, createNotification, hc, hfind, hrecip, hne]

theorem convCount_after_create {u1 u2 : String} {s : Store}
    (hc : s.configured = true) (hnone : convFor u1 u2 s = none) :
    convCount u1 u2 (getOrCreateConversation u1 u2 s).2 = 1 := by
  rw [getOrCreateConversation_create hc hnone]
  rw [convFor] at hnone
  rw [convCount]
  simp only []
  rw [List.filter_append, List.filter_eq_nil_iff.mpr (List.find?_eq_none.mp hnone)]
  simp

def sampleConv : Conversation := { id := 5, participants := ["alice", "bob"] }

/-- Like `sampleStore` but with one existing alice–bob conversation. -/
def convStore : Store := { sampleStore with conversations := [sampleConv], nextId := 6 }

theorem sampleStore_inv : OneTeamInv sampleStore := by
  refine ⟨by decide, ?_, by decide⟩
  intro p hp tid htid
  simp only [sampleStore, List.mem_cons, List.not_mem_nil, or_false] at hp
  rcases hp with h | h
  · subst h
    simp only [aliceProfile] at htid
    have : tid = 0 := by
      cases htid
      rfl
    subst this
    exact ⟨sampleTeam, by simp [sampleStore], rfl, by decide⟩
  · subst h
    simp only [bobProfile] at htid
    cases htid

theorem sampleStore_cap : Cap sampleStore := by
  intro t ht
  simp only [sampleStore, List.mem_cons, List.not_mem_nil, or_false] at ht
  subst ht
  decide

/-- Claim C1: a user's `teamId` is `null` or references exactly one team, the
membership-changing operations (`createTeam`, `addTeamMember`,
`removeTeamMember`, `respondToInvitation`, `terminateTeam`) preserve the
one-team invariant, `addTeamMember` throws `'User is already in a team'`
when the user's profile already has a non-null `teamId`, and
`removeTeamMember` resets the removed user's profile to a `null` `teamId`. -/
theorem C1_one_team_invariant :
    (∀ s : Store, OneTeamInv s → ∀ p ∈ s.profiles, p.2.teamId = none ∨
      ∀ tid, p.2.teamId = some tid → ∃! team : Team, team ∈ s.teams ∧ team.id = tid) ∧
    (∀ d s, OneTeamInv s → OneTeamInv (createTeam d s).2) ∧
    (∀ teamId userId role s, OneTeamInv s →
      OneTeamInv (addTeamMember teamId userId role s).2) ∧
    (∀ teamId userId s, userId ≠ "" → OneTeamInv s →
      OneTeamInv (removeTeamMember teamId userId s).2) ∧
    (∀ invitationId status role s, OneTeamInv s →
      OneTeamInv (respondToInvitation invitationId status role s).2) ∧
    (∀ teamId leaderId s, OneTeamInv s → OneTeamInv (terminateTeam teamId leaderId s).2) ∧
    (∀ teamId userId role s, s.configured = true →
      ((getProfile userId s).bind UserProfile.teamId).isSome = true →
      addTeamMember teamId userId role s = (.error "User is already in a team", s)) ∧
    (∀ teamId userId s team, s.configured = true → getTeam teamId s = some team →
      userId ≠ "" → ∀ p ∈ (removeTeamMember teamId userId s).2.profiles,
        p.1 = userId → p.2.teamId = none ∧ p.2.isTeamLeader = false) := by
  refine ⟨?_, ?_, ?_, ?_, ?_, ?_, ?_, ?_⟩
  · intro s hinv p hp
    by_cases htid : p.2.teamId = none
    · exact Or.inl htid
    · refine Or.inr ?_
      intro tid hsome
      obtain ⟨t0, ht0, ht0id, hpmem⟩ := hinv.2.1 p hp tid hsome
      refine ⟨t0, ⟨ht0, ht0id⟩, ?_⟩
      rintro t1 ⟨ht1, ht1id⟩
      exact nodup_team_unique hinv.1 ht1 ht0 (ht1id.trans ht0id.symm)
  · intro d s h
    exact OneTeamInv_createTeam d s h
  · intro teamId userId role s h
    exact OneTeamInv_addTeamMember teamId userId role s h
  · intro teamId userId s huid h
    exact OneTeamInv_removeTeamMember teamId userId s huid h
  · intro invitationId status role s h
    exact OneTeamInv_respondToInvitation invitationId status role s h
  · intro teamId leaderId s h
    exact OneTeamInv_terminateTeam teamId leaderId s h
  · intro teamId userId role s hc hbusy
    exact addTeamMember_already_in_team hc hbusy
  · intro teamId userId s team hc hteam huid p hp hkey
    rw [removeTeamMember_success hc hteam huid] at hp
    simp only [] at hp
    obtain ⟨q, hq, hqeq⟩ := List.mem_map.mp hp
    by_cases hk : (q.1 == userId) = true
    · rw [if_pos hk] at hqeq
      rw [← hqeq]
      exact ⟨rfl, rfl⟩
    · rw [if_neg hk] at hqeq
      rw [← hqeq] at hkey
      exact absurd hkey (by simpa using hk)

/-- Witness for C1 at `sampleStore`: Alice (already leading team 0) cannot be
added again, Bob's addition preserves the invariant, and removing Alice
resets her profile. -/
theorem C1_one_team_invariant_witness :
    OneTeamInv (addTeamMember 0 "bob" "Dev" sampleStore).2 ∧
    addTeamMember 0 "alice" "Dev" sampleStore = (.error "User is already in a team", sampleStore) ∧
    (∀ p ∈ (removeTeamMember 0 "alice" sampleStore).2.profiles,
      p.1 = "alice" → p.2.teamId = none ∧ p.2.isTeamLeader = false) := by
  refine ⟨C1_one_team_invariant.2.2.1 0 "bob" "Dev" sampleStore sampleStore_inv,
    C1_one_team_invariant.2.2.2.2.2.2.1 0 "alice" "Dev" sampleStore rfl (by decide),
    C1_one_team_invariant.2.2.2.2.2.2.2 0 "alice" sampleStore sampleTeam rfl (by decide)
      (by decide)⟩

/-- Claim C2: a team's member count never exceeds `maxMembers`:
`addTeamMember` throws `'Team is full'` when the team is at or above
capacity, `respondToInvitation` with `'accepted'` throws `'Team is full'`
under the same condition before adding the joining user, and both
operations preserve the capacity bound on every team. -/
theorem C2_capacity_limit :
    (∀ teamId userId role s team, s.configured = true →
      ((getProfile userId s).bind UserProfile.teamId).isSome = false →
      getTeam teamId s = some team →
      team.members.length ≥ team.maxMembers →
      addTeamMember teamId userId role s = (.error "Team is full", s)) ∧
    (∀ invitationId role s inv team, s.configured = true →
      (s.invitations.find? fun i => i.id == invitationId) = some inv →
      ((getProfile (joinerOf inv) s).bind UserProfile.teamId).isSome = false →
      getTeam inv.teamId s = some team →
      team.members.length ≥ team.maxMembers →
      respondToInvitation invitationId .accepted role s = (.error "Team is full", s)) ∧
    (∀ teamId userId role s, (s.teams.map Team.id).Nodup → Cap s →
      Cap (addTeamMember teamId userId role s).2) ∧
    (∀ invitationId status role s, (s.teams.map Team.id).Nodup → Cap s →
      Cap (respondToInvitation invitationId status role s).2) := by
  refine ⟨?_, ?_, ?_, ?_⟩
  · intro teamId userId role s team hc hfree hteam hfull
    exact addTeamMember_full hc hfree hteam hfull
  · intro invitationId role s inv team hc hfind hfree hteam hfull
    exact respondToInvitation_full hc hfind hfree hteam hfull
  · intro teamId userId role s hnodup h
    exact Cap_addTeamMember teamId userId role s hnodup h
  · intro invitationId status role s hnodup h
    exact Cap_respondToInvitation invitationId status role s hnodup h

/-- Witness for C2 at `fullStore` (team 0 at capacity 1) and `sampleStore`. -/
theorem C2_capacity_limit_witness :
    addTeamMember 0 "bob" "Dev" fullStore = (.error "Team is full", fullStore) ∧
    respondToInvitation 1 .accepted none fullStore = (.error "Team is full", fullStore) ∧
    Cap (addTeamMember 0 "bob" "Dev" sampleStore).2 := by
  refine ⟨C2_capacity_limit.1 0 "bob" "Dev" fullStore { sampleTeam with maxMembers := 1 }
      rfl (by decide) (by decide) (by decide),
    C2_capacity_limit.2.1 1 none fullStore sampleInvite { sampleTeam with maxMembers := 1 }
      rfl (by decide) (by decide) (by decide) (by decide),
    C2_capacity_limit.2.2.1 0 "bob" "Dev" sampleStore (by decide) sampleStore_cap⟩

/-- Claim C3: per (fromUser, team) pair at most one pending invitation —
when a pending invitation with the same `fromUserId` and `teamId` exists,
`sendInvitation` throws (`'Join request already sent'` for a join request,
`'Invitation already sent'` otherwise) and changes nothing; otherwise it
creates exactly one new invitation with status `'pending'`. -/
theorem C3_invitation_dedup (d : SendInvitationData) (s : Store)
    (hc : s.configured = true)
    (hto : d.type = InvType.invite →
      ((getProfile d.toUserId s).bind UserProfile.teamId).isSome = false)
    (hfrom : d.type = InvType.joinRequest →
      ((getProfile d.fromUserId s).bind UserProfile.teamId).isSome = false) :
    (dupPending d s ≠ [] →
      sendInvitation d s =
        (.error (if d.type = InvType.joinRequest then "Join request already sent"
                 else "Invitation already sent"), s)) ∧
    (dupPending d s = [] →
      (sendInvitation d s).1 = .ok () ∧
      (sendInvitation d s).2.invitations = s.invitations ++
        [{ id := s.nextId, type := d.type, status := .pending,
           fromUserId := d.fromUserId, fromUserName := d.fromUserName,
           toUserId := d.toUserId, toUserName := d.toUserName,
           teamId := d.teamId, teamName := d.teamName, message := d.message }]) := by
  constructor
  · intro hdup
    rw [dupPending] at hdup
    cases htype : d.type with
    | invite =>
      have h1 := hto htype
      simp [sendInvitation, hc, htype, h1, hdup, List.isEmpty_iff]
    | joinRequest =>
      have h1 := hfrom htype
      simp [sendInvitation, hc, htype, h1, hdup, List.isEmpty_iff]
  · intro hdup
    rw [sendInvitation_success hc hto hfrom hdup]
    exact ⟨rfl, rfl⟩

def dupInviteData : SendInvitationData :=
  { type := .invite, fromUserId := "alice", fromUserName := "Alice",
    toUserId := "bob", toUserName := "Bob", teamId := 0, teamName := "T" }

def joinBobData : SendInvitationData :=
  { type := .joinRequest, fromUserId := "bob", fromUserName := "Bob",
    toUserId := "alice", toUserName := "Alice", teamId := 0, teamName := "T" }

def inviteAliceData : SendInvitationData :=
  { type := .invite, fromUserId := "bob", fromUserName := "Bob",
    toUserId := "alice", toUserName := "Alice", teamId := 0, teamName := "T" }

def joinAliceData : SendInvitationData :=
  { type := .joinRequest, fromUserId := "alice", fromUserName := "Alice",
    toUserId := "bob", toUserName := "Bob", teamId := 0, teamName := "T" }

/-- Witness for C3 at `sampleStore`: Alice's second invitation for team 0 is
rejected as a duplicate, while Bob's first join request is created. -/
theorem C3_invitation_dedup_witness :
    sendInvitation dupInviteData sampleStore = (.error "Invitation already sent", sampleStore) ∧
    (sendInvitation joinBobData sampleStore).1 = .ok () := by
  constructor
  · have h := (C3_invitation_dedup dupInviteData sampleStore
      rfl (by intro h1; decide) (by intro h1; cases h1)).1 (by decide)
    simpa using h
  · exact ((C3_invitation_dedup joinBobData sampleStore
      rfl (by intro h1; cases h1) (by intro h1; decide)).2 (by decide)).1

/-- Claim C6: `sendInvitation` enforces the one-team precondition — an
invite to a user already in a team throws `'User is already in a team'`, a
join request from a user already in a team throws
`'You are already in a team'`, and in either case the store is unchanged
(no invitation, no notification). -/
theorem C6_sendInvitation_one_team_precondition (d : SendInvitationData) (s : Store)
    (hc : s.configured = true) :
    (d.type = InvType.invite →
      ((getProfile d.toUserId s).bind UserProfile.teamId).isSome = true →
      sendInvitation d s = (.error "User is already in a team", s)) ∧
    (d.type = InvType.joinRequest →
      ((getProfile d.fromUserId s).bind UserProfile.teamId).isSome = true →
      sendInvitation d s = (.error "You are already in a team", s)) := by
  constructor
  · intro ht hsome
    simp [sendInvitation, hc, ht, hsome]
  · intro ht hsome
    simp [sendInvitation, hc, ht, hsome]

/-- Witness for C6 at `sampleStore`: inviting Alice (already in team 0) and
a join request from Alice both fail without any write. -/
theorem C6_sendInvitation_one_team_precondition_witness :
    sendInvitation inviteAliceData sampleStore =
      (.error "User is already in a team", sampleStore) ∧
    sendInvitation joinAliceData sampleStore =
      (.error "You are already in a team", sampleStore) := by
  constructor
  · exact (C6_sendInvitation_one_team_precondition inviteAliceData sampleStore rfl).1
      rfl (by decide)
  · exact (C6_sendInvitation_one_team_precondition joinAliceData sampleStore rfl).2
      rfl (by decide)

/-- Claim C7: `createTeam` creates a team whose members list is exactly the
leader with role `'Team Leader'`, points the leader's profile at the new
team with `isTeamLeader := true`, and creates one feed post of type
`'team_created'`. -/
theorem C7_createTeam_shape (d : CreateTeamData) (s : Store)
    (hc : s.configured = true) (hleader : d.leaderId ≠ "") :
    (createTeam d s).1 = .ok (some s.nextId) ∧
    (createTeam d s).2.teams = s.teams ++
      [{ id := s.nextId, name := d.name, description := d.description,
         leaderId := d.leaderId,
         leaderName := strOr ((getProfile d.leaderId s).bind UserProfile.fullName) "User",
         maxMembers := d.maxMembers,
         members := [{ userId := d.leaderId, role := "Team Leader",
                       userName := strOr ((getProfile d.leaderId s).bind UserProfile.fullName) "User" }],
         status := d.status, rolesNeeded := d.rolesNeeded }] ∧
    (∀ p ∈ (createTeam d s).2.profiles, p.1 = d.leaderId →
      p.2.teamId = some s.nextId ∧ p.2.isTeamLeader = true) ∧
    (createTeam d s).2.posts.map FeedPost.type = s.posts.map FeedPost.type ++ ["team_created"] := by
  rw [createTeam_success hc hleader]
  refine ⟨rfl, rfl, ?_, by simp⟩
  intro p hp hpl
  simp only [] at hp
  obtain ⟨q, hq, hqeq⟩ := List.mem_map.mp hp
  by_cases hkey : (q.1 == d.leaderId) = true
  · rw [if_pos hkey] at hqeq
    rw [← hqeq]
    exact ⟨rfl, rfl⟩
  · rw [if_neg hkey] at hqeq
    rw [← hqeq] at hpl
    exact absurd hpl (by simpa using hkey)

def newTeamData : CreateTeamData := { name := "N", leaderId := "bob", maxMembers := 4 }

/-- Witness for C7: Bob creates a team in `sampleStore`. -/
theorem C7_createTeam_shape_witness :
    (createTeam newTeamData sampleStore).1 = .ok (some 2) ∧
    (createTeam newTeamData sampleStore).2.posts.map FeedPost.type = ["team_created"] ∧
    (∀ p ∈ (createTeam newTeamData sampleStore).2.profiles, p.1 = "bob" →
      p.2.teamId = some 2 ∧ p.2.isTeamLeader = true) := by
  have h := C7_createTeam_shape newTeamData sampleStore rfl (by decide)
  exact ⟨h.1, by rw [h.2.2.2]; rfl, h.2.2.1⟩

/-- Claim C8: `respondToInvitation` with `'accepted'` throws before any
write in each failure case — missing invitation, joining user already in a
team, missing team, full team — leaving the store (and so the invitation's
`'pending'` status) unchanged. -/
theorem C8_accept_failure_atomic (invitationId : Nat) (role : Option String) (s : Store)
    (hc : s.configured = true) :
    ((s.invitations.find? fun i => i.id == invitationId) = none →
      respondToInvitation invitationId .accepted role s = (.error "Invitation not found", s)) ∧
    (∀ inv, (s.invitations.find? fun i => i.id == invitationId) = some inv →
      ((getProfile (joinerOf inv) s).bind UserProfile.teamId).isSome = true →
      respondToInvitation invitationId .accepted role s =
        (.error "User is already in a team", s)) ∧
    (∀ inv, (s.invitations.find? fun i => i.id == invitationId) = some inv →
      ((getProfile (joinerOf inv) s).bind UserProfile.teamId).isSome = false →
      getTeam inv.teamId s = none →
      respondToInvitation invitationId .accepted role s =
        (.error "Team no longer exists", s)) ∧
    (∀ inv team, (s.invitations.find? fun i => i.id == invitationId) = some inv →
      ((getProfile (joinerOf inv) s).bind UserProfile.teamId).isSome = false →
      getTeam inv.teamId s = some team →
      team.members.length ≥ team.maxMembers →
      respondToInvitation invitationId .accepted role s = (.error "Team is full", s)) := by
  refine ⟨?_, ?_, ?_, ?_⟩
  · intro hfind
    exact respondToInvitation_not_found hc hfind
  · intro inv hfind hbusy
    exact respondToInvitation_already_in_team hc hfind hbusy
  · intro inv hfind hfree hteam
    exact respondToInvitation_team_gone hc hfind hfree hteam
  · intro inv team hfind hfree hteam hfull
    exact respondToInvitation_full hc hfind hfree hteam hfull

def busyInvite : Invitation :=
  { id := 1, type := .invite, status := .pending,
    fromUserId := "bob", fromUserName := "Bob",
    toUserId := "alice", toUserName := "Alice", teamId := 0, teamName := "T" }

/-- Like `sampleStore` but the pending invitation targets Alice, who is
already in a team. -/
def busyStore : Store := { sampleStore with invitations := [busyInvite] }

/-- Like `sampleStore` but team 0 no longer exists. -/
def goneStore : Store := { sampleStore with teams := [] }

/-- Witness for C8: all four failure cases at concrete stores. -/
theorem C8_accept_failure_atomic_witness :
    respondToInvitation 99 .accepted none sampleStore =
      (.error "Invitation not found", sampleStore) ∧
    respondToInvitation 1 .accepted none busyStore =
      (.error "User is already in a team", busyStore) ∧
    respondToInvitation 1 .accepted none goneStore =
      (.error "Team no longer exists", goneStore) ∧
    respondToInvitation 1 .accepted none fullStore =
      (.error "Team is full", fullStore) := by
  refine ⟨(C8_accept_failure_atomic 99 none sampleStore rfl).1 (by decide),
    (C8_accept_failure_atomic 1 none busyStore rfl).2.1 busyInvite (by decide) (by decide),
    (C8_accept_failure_atomic 1 none goneStore rfl).2.2.1 sampleInvite (by decide) (by decide)
      (by decide),
    (C8_accept_failure_atomic 1 none fullStore rfl).2.2.2 sampleInvite
      { sampleTeam with maxMembers := 1 } (by decide) (by decide) (by decide) (by decide)⟩

/-- Claim C4: `respondToInvitation` resolves a pending invitation — it sets
the invitation's status to the given value, and on `'accepted'` the joining
user (the `fromUser` of a join request, the `toUser` of an invite) is
appended to the team's members list and that user's profile gets the team's
id with `isTeamLeader := false`. -/
theorem C4_respond_resolves (invitationId : Nat) (role : Option String) (s : Store)
    (inv : Invitation) (hc : s.configured = true)
    (hfind : (s.invitations.find? fun i => i.id == invitationId) = some inv) :
    ((respondToInvitation invitationId .rejected role s).1 = .ok () ∧
     (respondToInvitation invitationId .rejected role s).2.invitations =
       s.invitations.map (fun i =>
         if i.id == invitationId then { i with status := .rejected } else i)) ∧
    (∀ team, ((getProfile (joinerOf inv) s).bind UserProfile.teamId).isSome = false →
      getTeam inv.teamId s = some team →
      team.members.length < team.maxMembers →
      joinerOf inv ≠ "" →
      (respondToInvitation invitationId .accepted role s).1 = .ok () ∧
      (respondToInvitation invitationId .accepted role s).2.invitations =
        s.invitations.map (fun i =>
          if i.id == invitationId then { i with status := .accepted } else i) ∧
      (respondToInvitation invitationId .accepted role s).2.teams =
        s.teams.map (fun t =>
          if t.id == inv.teamId then
            { t with members := team.members ++
                [{ userId := joinerOf inv, role := joiningRoleOf inv role s,
                   userName := strOr ((getProfile (joinerOf inv) s).bind UserProfile.fullName) "User" }] }
          else t) ∧
      (∀ p ∈ (respondToInvitation invitationId .accepted role s).2.profiles,
        p.1 = joinerOf inv → p.2.teamId = some inv.teamId ∧ p.2.isTeamLeader = false)) := by
  constructor
  · rw [respondToInvitation_rejected hc hfind]
    exact ⟨rfl, rfl⟩
  · intro team hfree hteam hroom hjid
    rw [respondToInvitation_accepted_success hc hfind hfree hteam hroom hjid]
    refine ⟨rfl, rfl, rfl, ?_⟩
    intro p hp hpl
    simp only [] at hp
    obtain ⟨q, hq, hqeq⟩ := List.mem_map.mp hp
    by_cases hkey : (q.1 == joinerOf inv) = true
    · rw [if_pos hkey] at hqeq
      rw [← hqeq]
      exact ⟨rfl, rfl⟩
    · rw [if_neg hkey] at hqeq
      rw [← hqeq] at hpl
      exact absurd hpl (by simpa using hkey)

/-- Witness for C4 at `sampleStore`: rejecting and accepting invitation 1. -/
theorem C4_respond_resolves_witness :
    (respondToInvitation 1 .rejected none sampleStore).2.invitations.map Invitation.status =
      [InvStatus.rejected] ∧
    (respondToInvitation 1 .accepted none sampleStore).2.teams.map
      (fun t => t.members.map TeamMember.userId) = [["alice", "bob"]] ∧
    (∀ p ∈ (respondToInvitation 1 .accepted none sampleStore).2.profiles,
      p.1 = "bob" → p.2.teamId = some 0 ∧ p.2.isTeamLeader = false) := by
  have h := C4_respond_resolves 1 none sampleStore sampleInvite rfl (by decide)
  have ha := h.2 sampleTeam (by decide) (by decide) (by decide) (by decide)
  refine ⟨by rw [h.1.2]; decide, by rw [ha.2.2.1]; decide, ?_⟩
  intro p hp hpl
  exact ha.2.2.2 p hp hpl

/-- Claim C5: each invitation/messaging state transition creates exactly one
notification of the matching type, with `read := false` — `sendInvitation`
notifies the target user with `'INVITE'`/`'JOIN_REQUEST'`,
`respondToInvitation` notifies the invitation's `fromUser` with
`'ACCEPTED'`/`'REJECTED'`, and `sendMessage` notifies the other
conversation participant with `'MESSAGE'`. -/
theorem C5_notification_side_effects :
    (∀ (d : SendInvitationData) (s : Store), s.configured = true →
      (d.type = InvType.invite →
        ((getProfile d.toUserId s).bind UserProfile.teamId).isSome = false) →
      (d.type = InvType.joinRequest →
        ((getProfile d.fromUserId s).bind UserProfile.teamId).isSome = false) →
      dupPending d s = [] →
      (sendInvitation d s).2.notifications = s.notifications ++
        [{ id := s.nextId + 1, toUserId := d.toUserId, fromUserId := d.fromUserId,
           fromUserName := d.fromUserName,
           type := if d.type == InvType.joinRequest then .JOIN_REQUEST else .INVITE,
           teamId := some d.teamId, teamName := some d.teamName,
           message := d.message, read := false }]) ∧
    (∀ (invitationId : Nat) (role : Option String) (s : Store) (inv : Invitation),
      s.configured = true →
      (s.invitations.find? fun i => i.id == invitationId) = some inv →
      (respondToInvitation invitationId .rejected role s).2.notifications =
        s.notifications ++
        [{ id := s.nextId, toUserId := inv.fromUserId, fromUserId := inv.toUserId,
           fromUserName := strOr ((getProfile inv.toUserId s).bind UserProfile.fullName) "User",
           type := .REJECTED, teamId := some inv.teamId, teamName := some inv.teamName,
           message := some (if inv.type == InvType.joinRequest then
               "Your request to join " ++ inv.teamName ++ " was declined"
             else inv.toUserName ++ " declined your invitation to join " ++ inv.teamName),
           read := false }]) ∧
    (∀ (invitationId : Nat) (role : Option String) (s : Store) (inv : Invitation) (team : Team),
      s.configured = true →
      (s.invitations.find? fun i => i.id == invitationId) = some inv →
      ((getProfile (joinerOf inv) s).bind UserProfile.teamId).isSome = false →
      getTeam inv.teamId s = some team →
      team.members.length < team.maxMembers →
      joinerOf inv ≠ "" →
      (respondToInvitation invitationId .accepted role s).2.notifications =
        s.notifications ++
        [{ id := s.nextId + 2, toUserId := inv.fromUserId, fromUserId := inv.toUserId,
           fromUserName := strOr ((getProfile inv.toUserId s).bind UserProfile.fullName) "User",
           type := .ACCEPTED, teamId := some inv.teamId, teamName := some inv.teamName,
           message := some (if inv.type == InvType.joinRequest then
               "Your request to join " ++ inv.teamName ++ " was accepted!"
             else joinerNameOf inv ++ " accepted your invitation to join " ++ inv.teamName),
           read := false }]) ∧
    (∀ (conversationId : Nat) (senderId text : String) (s : Store)
        (conv : Conversation) (recipientId : String),
      s.configured = true →
      (s.conversations.find? fun c => c.id == conversationId) = some conv →
      (conv.participants.find? fun uid => !(uid == senderId)) = some recipientId →
      recipientId ≠ "" →
      (sendMessage conversationId senderId text s).2.notifications =
        s.notifications ++
        [{ id := s.nextId + 1, toUserId := recipientId, fromUserId := senderId,
           fromUserName := strOr ((getProfile senderId s).bind UserProfile.fullName) "User",
           type := .MESSAGE,
           message := some (if text.length > 50 then text.take 50 ++ "..." else text),
           conversationId := some conversationId, read := false }]) := by
  refine ⟨?_, ?_, ?_, ?_⟩
  · intro d s hc hto hfrom hdup
    rw [sendInvitation_success hc hto hfrom hdup]
  · intro invitationId role s inv hc hfind
    rw [respondToInvitation_rejected hc hfind]
  · intro invitationId role s inv team hc hfind hfree hteam hroom hjid
    rw [respondToInvitation_accepted_success hc hfind hfree hteam hroom hjid]
  · intro conversationId senderId text s conv recipientId hc hfind hrecip hne
    rw [sendMessage_success hc hfind hrecip hne]

/-- Witness for C5 at `sampleStore` and `convStore`. -/
theorem C5_notification_side_effects_witness :
    (sendInvitation joinBobData sampleStore).2.notifications.map
        (fun n => (n.type, n.toUserId, n.read)) = [(NotifType.JOIN_REQUEST, "alice", false)] ∧
    (respondToInvitation 1 .rejected none sampleStore).2.notifications.map
        (fun n => (n.type, n.toUserId, n.read)) = [(NotifType.REJECTED, "alice", false)] ∧
    (respondToInvitation 1 .accepted none sampleStore).2.notifications.map
        (fun n => (n.type, n.toUserId, n.read)) = [(NotifType.ACCEPTED, "alice", false)] ∧
    (sendMessage 5 "alice" "hi" convStore).2.notifications.map
        (fun n => (n.type, n.toUserId, n.read)) = [(NotifType.MESSAGE, "bob", false)] := by
  refine ⟨?_, ?_, ?_, ?_⟩
  · rw [C5_notification_side_effects.1 joinBobData sampleStore rfl
      (by intro h1; cases h1) (by intro h1; decide) (by decide)]
    rfl
  · rw [C5_notification_side_effects.2.1 1 none sampleStore sampleInvite rfl (by decide)]
    rfl
  · rw [C5_notification_side_effects.2.2.1 1 none sampleStore sampleInvite sampleTeam rfl
      (by decide) (by decide) (by decide) (by decide) (by decide)]
    rfl
  · rw [C5_notification_side_effects.2.2.2 5 "alice" "hi" convStore sampleConv "bob" rfl
      (by decide) (by decide) (by decide)]
    rfl

/-- Claim C9: `getOrCreateConversation` is idempotent — an existing
conversation for the pair is returned unchanged, two successive calls agree
on the returned id and final store, and starting with no conversation for
the pair the two calls leave exactly one. -/
theorem C9_conversation_idempotent (u1 u2 : String) (s : Store)
    (hc : s.configured = true) :
    (∀ c, convFor u1 u2 s = some c → getOrCreateConversation u1 u2 s = (some c.id, s)) ∧
    ((getOrCreateConversation u1 u2 ((getOrCreateConversation u1 u2 s).2)).1 =
       (getOrCreateConversation u1 u2 s).1 ∧
     (getOrCreateConversation u1 u2 ((getOrCreateConversation u1 u2 s).2)).2 =
       (getOrCreateConversation u1 u2 s).2) ∧
    (convFor u1 u2 s = none →
      convCount u1 u2 (getOrCreateConversation u1 u2 s).2 = 1 ∧
      convCount u1 u2
        ((getOrCreateConversation u1 u2 ((getOrCreateConversation u1 u2 s).2)).2) = 1) := by
  have hsecond : (getOrCreateConversation u1 u2 ((getOrCreateConversation u1 u2 s).2)).1 =
      (getOrCreateConversation u1 u2 s).1 ∧
      (getOrCreateConversation u1 u2 ((getOrCreateConversation u1 u2 s).2)).2 =
      (getOrCreateConversation u1 u2 s).2 := by
    cases hfind : convFor u1 u2 s with
    | some c =>
      have h1 := getOrCreateConversation_found hc hfind
      rw [h1]
      show (getOrCreateConversation u1 u2 s).1 = some c.id ∧
        (getOrCreateConversation u1 u2 s).2 = s
      rw [h1]
      exact ⟨rfl, rfl⟩
    | none =>
      have hafter := convFor_after_create hc hfind
      have hc1 : ((getOrCreateConversation u1 u2 s).2).configured = true := by
        rw [getOrCreateConversation_create hc hfind]
        exact hc
      rw [getOrCreateConversation_found hc1 hafter]
      rw [getOrCreateConversation_create hc hfind]
      exact ⟨rfl, rfl⟩
  refine ⟨?_, hsecond, ?_⟩
  · intro c hfound
    exact getOrCreateConversation_found hc hfound
  · intro hnone
    refine ⟨convCount_after_create hc hnone, ?_⟩
    rw [hsecond.2]
    exact convCount_after_create hc hnone

/-- Witness for C9: the existing alice–bob conversation in `convStore` is
reused, and in `sampleStore` (no conversations) two calls leave one. -/
theorem C9_conversation_idempotent_witness :
    getOrCreateConversation "alice" "bob" convStore = (some 5, convStore) ∧
    convCount "alice" "bob" (getOrCreateConversation "alice" "bob" sampleStore).2 = 1 := by
  refine ⟨(C9_conversation_idempotent "alice" "bob" convStore rfl).1 sampleConv (by decide), ?_⟩
  exact ((C9_conversation_idempotent "alice" "bob" sampleStore rfl).2.2 (by decide)).1

/-- Counterexample to C10 as stated: `deleteUserCompletely` has no
`isFirebaseConfigured()` guard, so on the unconfigured `offStore` it still
deletes Bob's profile and post instead of returning without performing any
operation. -/
theorem C10_counterexample :
    offStore.configured = false ∧
    (deleteUserCompletely "bob" offStore).2.profiles = [] ∧
    (deleteUserCompletely "bob" offStore).2.posts = [] ∧
    offStore.profiles ≠ [] ∧ offStore.posts ≠ [] := by
  decide

/-- Claim C10 (amended): when Firebase is not configured, every modelled
exported data-access function except the unguarded `deleteUserCompletely`
is a no-op — reads return the neutral value (`none`, `[]`-like, `0`,
`none` for created ids, `true` for `isUsernameAvailable`) and writes return
leaving the store untouched. -/
theorem C10_unconfigured_noop (s : Store) (hc : s.configured = false) :
    (∀ u, getProfile u s = none) ∧
    (∀ t, getTeam t s = none) ∧
    getAvailableUsersCount s = 0 ∧
    (∀ un ex, isUsernameAvailable un ex s = true) ∧
    (∀ d, createTeam d s = (.ok none, s)) ∧
    (∀ t u r, addTeamMember t u r s = (.ok (), s)) ∧
    (∀ t u, removeTeamMember t u s = (.ok (), s)) ∧
    (∀ t l, terminateTeam t l s = (.ok (), s)) ∧
    (∀ d, sendInvitation d s = (.ok (), s)) ∧
    (∀ i st ro, respondToInvitation i st ro s = (.ok (), s)) ∧
    (∀ nd, createNotification nd s = s) ∧
    (∀ fd, createFeedPost fd s = (none, s)) ∧
    (∀ u1 u2, getOrCreateConversation u1 u2 s = (none, s)) ∧
    (∀ c u tx, sendMessage c u tx s = (.ok none, s)) ∧
    (∀ u tid b, updateProfileTeam u tid b s = (.ok (), s)) ∧
    (∀ t ms, updateTeam t ms s = s) := by
  refine ⟨?_, ?_, ?_, ?_, ?_, ?_, ?_, ?_, ?_, ?_, ?_, ?_, ?_, ?_, ?_, ?_⟩
  · intro u
    simp [getProfile, hc]
  · intro t
    simp [getTeam, hc]
  · simp [getAvailableUsersCount, hc]
  · intro un ex
    simp [isUsernameAvailable, hc]
  · intro d
    exact createTeam_not_configured hc
  · intro t u r
    exact addTeamMember_not_configured hc
  · intro t u
    exact removeTeamMember_not_configured hc
  · intro t l
    exact terminateTeam_not_configured hc
  · intro d
    simp [sendInvitation, hc]
  · intro i st ro
    exact respondToInvitation_not_configured hc
  · intro nd
    simp [createNotification, hc]
  · intro fd
    simp [createFeedPost, hc]
  · intro u1 u2
    exact getOrCreateConversation_not_configured hc
  · intro c u tx
    simp [sendMessage, hc]
  · intro u tid b
    simp [updateProfileTeam, hc]
  · intro t ms
    simp [updateTeam, hc]

/-- Witness for the amended C10 at `offStore`. -/
theorem C10_unconfigured_noop_witness :
    getProfile "bob" offStore = none ∧
    getAvailableUsersCount offStore = 0 ∧
    sendInvitation joinBobData offStore = (.ok (), offStore) ∧
    createTeam newTeamData offStore = (.ok none, offStore) ∧
    sendMessage 0 "bob" "hi" offStore = (.ok none, offStore) := by
  have h := C10_unconfigured_noop offStore rfl
  exact ⟨h.1 "bob", h.2.2.1, h.2.2.2.2.2.2.2.2.1 joinBobData, h.2.2.2.2.1 newTeamData,
    h.2.2.2.2.2.2.2.2.2.2.2.2.2.1 0 "bob" "hi"⟩
